import Mathlib

/-! QtSwissArmyKnife / xTools: GUI wiring of the storer tool page and of the
main window.

A shallow embedding of `src/src/toolsui/SAKStorerToolUi.cc` and
`src/Source/MainWindow.cpp`.  Widgets are records of the properties the code
reads and writes, Qt signal connections are explicit lists of slots, and the
process-wide settings singleton is a key-value store passed through every
operation.
-/

namespace SAK

/-! ## SAKStorerToolUi (src/src/toolsui/SAKStorerToolUi.cc) -/

/-- The four flags of a `SAKStorerTool` that the page writes: the "enable"
property and the three stamp flags. -/
structure SAKStorerTool where
  enable : Bool
  saveDate : Bool
  saveTime : Bool
  saveMs : Bool
deriving DecidableEq, Repr

/-- The four check boxes of `ui_SAKStorerToolUi.h` used by `setupStorer`. -/
inductive CheckBox where
  | checkBoxEnable
  | checkBoxDate
  | checkBoxTime
  | checkBoxMs
deriving DecidableEq, Repr

/-- The receiver object of a connection: the page itself (`this`) or a tool,
named by its address. -/
inductive Receiver where
  | this
  | tool (addr : Nat)
deriving DecidableEq, Repr

/-- The four lambdas of `setupStorer`, by the setter they call
(lines 49-51, 52-54, 55-57 and 58-60). -/
inductive Slot where
  | setEnable
  | setSaveDate
  | setSaveTime
  | setSaveMs
deriving DecidableEq, Repr

/-- One `connect(sender, &QCheckBox::clicked, receiver, slot)`. -/
structure Connection where
  sender : CheckBox
  receiver : Receiver
  slot : Slot
deriving DecidableEq, Repr

/-- The page: the checked state of its check boxes, `mTool` (`none` is
`nullptr`) and the connections on the `clicked` signals, oldest first. -/
structure SAKStorerToolUi where
  checkBoxEnable : Bool
  checkBoxDate : Bool
  checkBoxTime : Bool
  checkBoxMs : Bool
  mTool : Option Nat
  connections : List Connection

/-- The page together with the tool objects it can point to, by address. -/
structure StorerWorld where
  ui : SAKStorerToolUi
  tools : Nat → SAKStorerTool

/-- Embedding of `isChecked()` of a check box of the page. -/
def SAKStorerToolUi.isChecked (ui : SAKStorerToolUi) : CheckBox → Bool
  | .checkBoxEnable => ui.checkBoxEnable
  | .checkBoxDate => ui.checkBoxDate
  | .checkBoxTime => ui.checkBoxTime
  | .checkBoxMs => ui.checkBoxMs

/-- Write one tool object. -/
def setTool (tools : Nat → SAKStorerTool) (addr : Nat) (t : SAKStorerTool) :
    Nat → SAKStorerTool :=
  fun a => if a = addr then t else tools a

/-- Embedding of `disconnect(sender, &QCheckBox::clicked, receiver, nullptr)`: drops the
connections of that signal whose receiver is the given object. -/
def disconnect (sender : CheckBox) (receiver : Receiver) (cs : List Connection) :
    List Connection :=
  cs.filter (fun c => !(decide (c.sender = sender) && decide (c.receiver = receiver)))

/-- The body of one lambda.  The capture `[=]` holds `this`, so `mTool` and
`ui` are read when the slot runs. -/
def runSlot (w : StorerWorld) : Slot → StorerWorld
  | .setEnable =>
    match w.ui.mTool with
    | none => w
    | some a => { w with tools := setTool w.tools a { w.tools a with enable := w.ui.checkBoxEnable } }
  | .setSaveDate =>
    match w.ui.mTool with
    | none => w
    | some a => { w with tools := setTool w.tools a { w.tools a with saveDate := w.ui.checkBoxDate } }
  | .setSaveTime =>
    match w.ui.mTool with
    | none => w
    | some a => { w with tools := setTool w.tools a { w.tools a with saveTime := w.ui.checkBoxTime } }
  | .setSaveMs =>
    match w.ui.mTool with
    | none => w
    | some a => { w with tools := setTool w.tools a { w.tools a with saveMs := w.ui.checkBoxMs } }

/-- Embedding of `SAKStorerToolUi::setupStorer(tool)`, lines 30-61. -/
def setupStorer (tool : Option Nat) (w : StorerWorld) : StorerWorld :=
  match tool with
  | none => w
  | some t =>
    let cs0 := w.ui.connections
    let cs1 :=
      match w.ui.mTool with
      | none => cs0
      | some old =>
        disconnect .checkBoxMs (.tool old)
          (disconnect .checkBoxTime (.tool old)
            (disconnect .checkBoxDate (.tool old)
              (disconnect .checkBoxEnable (.tool old) cs0)))
    let flags : SAKStorerTool :=
      { enable := w.ui.checkBoxEnable
        saveDate := w.ui.checkBoxDate
        saveTime := w.ui.checkBoxTime
        saveMs := w.ui.checkBoxMs }
    let cs2 := cs1 ++
      [ { sender := .checkBoxEnable, receiver := .this, slot := .setEnable },
        { sender := .checkBoxDate, receiver := .this, slot := .setSaveDate },
        { sender := .checkBoxDate, receiver := .this, slot := .setSaveTime },
        { sender := .checkBoxMs, receiver := .this, slot := .setSaveMs } ]
    { ui := { w.ui with mTool := some t, connections := cs2 }
      tools := setTool w.tools t flags }

/-- The user toggles a check box: its checked state flips. -/
def SAKStorerToolUi.toggle (ui : SAKStorerToolUi) : CheckBox → SAKStorerToolUi
  | .checkBoxEnable => { ui with checkBoxEnable := !ui.checkBoxEnable }
  | .checkBoxDate => { ui with checkBoxDate := !ui.checkBoxDate }
  | .checkBoxTime => { ui with checkBoxTime := !ui.checkBoxTime }
  | .checkBoxMs => { ui with checkBoxMs := !ui.checkBoxMs }

/-- Emission of `clicked` by a check box: every slot connected to that
sender runs, in connection order. -/
def emitClicked (cb : CheckBox) (cs : List Connection) (w : StorerWorld) : StorerWorld :=
  cs.foldl (fun acc c => if c.sender = cb then runSlot acc c.slot else acc) w

/-- A user click on a check box: the box toggles, then `clicked` is emitted. -/
def click (cb : CheckBox) (w : StorerWorld) : StorerWorld :=
  let w1 : StorerWorld := { w with ui := w.ui.toggle cb }
  emitClicked cb w1.ui.connections w1

/-- The flag of a tool that belongs to a check box. -/
def SAKStorerTool.flag (t : SAKStorerTool) : CheckBox → Bool
  | .checkBoxEnable => t.enable
  | .checkBoxDate => t.saveDate
  | .checkBoxTime => t.saveTime
  | .checkBoxMs => t.saveMs

/-- The check box whose state a lambda reads. -/
def Slot.box : Slot → CheckBox
  | .setEnable => .checkBoxEnable
  | .setSaveDate => .checkBoxDate
  | .setSaveTime => .checkBoxTime
  | .setSaveMs => .checkBoxMs

/-- A freshly constructed page: nothing checked, no tool, no connection on
the check boxes. -/
def SAKStorerToolUi.fresh : SAKStorerToolUi :=
  { checkBoxEnable := false, checkBoxDate := false, checkBoxTime := false,
    checkBoxMs := false, mTool := none, connections := [] }

/-- A world with a fresh page and every tool flag cleared. -/
def StorerWorld.fresh : StorerWorld :=
  { ui := SAKStorerToolUi.fresh, tools := fun _ => ⟨false, false, false, false⟩ }

/-! ## xToolsSettings and QVariant, as MainWindow.cpp uses them -/

/-- A `QVariant` as the code observes it: the results of `isNull()`,
`toBool()` and `toInt()`.  Any stored value, whatever its type, is one such
triple. -/
structure QVariant where
  isNull : Bool
  toBool : Bool
  toInt : Int
deriving DecidableEq, Repr

/-- The default-constructed `QVariant()`, which `value(key)` returns for an
absent key: null, converting to `false` and to `0`. -/
def QVariant.invalid : QVariant := ⟨true, false, 0⟩

/-- The variant `QVariant(bool)` that `setValue(key, bool)` stores. -/
def QVariant.ofBool (b : Bool) : QVariant := ⟨false, b, if b then 1 else 0⟩

/-- The variant `QVariant(int)` that `setValue(key, int)` stores. -/
def QVariant.ofInt (i : Int) : QVariant := ⟨false, decide (i ≠ 0), i⟩

/-- The process-wide settings singleton: the key-value store and the
clear-settings flag. -/
structure xToolsSettings where
  store : String → Option QVariant
  clearSettings : Bool

/-- Embedding of `xToolsSettings::instance()->value(key)`. -/
def xToolsSettings.value (s : xToolsSettings) (key : String) : QVariant :=
  (s.store key).getD QVariant.invalid

/-- Embedding of `xToolsSettings::instance()->setValue(key, v)`. -/
def xToolsSettings.setValue (s : xToolsSettings) (key : String) (v : QVariant) :
    xToolsSettings :=
  { s with store := fun k => if k = key then some v else s.store k }

/-- Embedding of `xToolsSettings::instance()->setClearSettings(b)`. -/
def xToolsSettings.setClearSettings (s : xToolsSettings) (b : Bool) : xToolsSettings :=
  { s with clearSettings := b }

/-- A settings object with nothing stored. -/
def xToolsSettings.blank : xToolsSettings :=
  { store := fun _ => none, clearSettings := false }

/-- The member `m_settingsKey` of the window: the three key strings, whose
values are declared outside the supplied sources. -/
structure SettingsKey where
  exitToSystemTray : String
  isTextBesideIcon : String
  pageIndex : String

/-! ## Widgets of MainWindow.cpp -/

/-- Menus that can sit in the menu bar: the four menus the base window
`xToolsMainWindow` owns, the two menus `MainWindow` creates, and any other
menu, by number. -/
inductive MenuId where
  | m_fileMenu
  | m_optionMenu
  | m_languageMenu
  | m_helpMenu
  | toolMenu
  | linksMenu
  | other (n : Nat)
deriving DecidableEq, Repr

/-- An entry of the Links menu: a separator, or an action with its icon
path, text and object name. -/
inductive MenuItem where
  | separator
  | action (iconPath : String) (text : String) (objectName : String)
deriving DecidableEq, Repr

/-- The two values of `Qt::ToolButtonStyle` the code uses. -/
inductive ToolButtonStyle where
  | ToolButtonIconOnly
  | ToolButtonTextBesideIcon
deriving DecidableEq, Repr

/-- The lambdas connected to `QToolButton::clicked` in `initNav`, with what
each captured by value: the page lambda of `initNav(ctx)` holds `pageCount`,
the lambda of the "Hide Text" button holds `key`. -/
inductive NavSlot where
  | showPage (pageCount : Int)
  | toggleText (key : String)
deriving DecidableEq, Repr

/-- A `QToolButton`: the properties `initNav` sets, and the slots connected
to its `clicked` signal, oldest first. -/
structure QToolButton where
  icon : String
  text : String
  toolTip : String
  autoRaise : Bool
  checkable : Bool
  checked : Bool
  toolButtonStyle : ToolButtonStyle
  clicked : List NavSlot
deriving DecidableEq, Repr

/-- The central `QStackedWidget`: its pages (widgets by address) in index
order, the current index (`-1` while empty), and the arguments of the
`setCurrentIndex` calls it has received, oldest first. -/
structure QStackedWidget where
  pages : List Nat
  currentIndex : Int
  calls : List Int
deriving DecidableEq, Repr

/-- A new `QStackedWidget()`. -/
def QStackedWidget.empty : QStackedWidget := { pages := [], currentIndex := -1, calls := [] }

/-- Embedding of `QStackedWidget::addWidget(page)`: the page is appended; if the stack
was empty it becomes the current page. -/
def QStackedWidget.addWidget (sw : QStackedWidget) (page : Nat) : QStackedWidget :=
  { sw with pages := sw.pages ++ [page]
            currentIndex := if sw.pages = [] then 0 else sw.currentIndex }

/-- Embedding of `QStackedWidget::setCurrentIndex(i)`: the page at a valid index becomes
current, any other index leaves the stack as it is. -/
def QStackedWidget.setCurrentIndex (sw : QStackedWidget) (i : Int) : QStackedWidget :=
  { sw with currentIndex := if 0 ≤ i ∧ i < sw.pages.length then i else sw.currentIndex
            calls := sw.calls ++ [i] }

/-- Embedding of `QStackedWidget::currentWidget()`. -/
def QStackedWidget.currentWidget (sw : QStackedWidget) : Option Nat :=
  if 0 ≤ sw.currentIndex then sw.pages.get? sw.currentIndex.toNat else none

/-- What the tool bar holds, in order: separators, nav buttons (by their
index in the button group), the stretch label and the "Hide Text" button. -/
inductive ToolBarItem where
  | separator
  | navButton (index : Nat)
  | label (text : String)
  | hideText
deriving DecidableEq, Repr

/-- The struct `NavContext`: icon, name and page of one nav entry.  The fields `bg` and
`tb` are the window's button group and tool bar at every call site. -/
structure NavContext where
  icon : String
  name : String
  page : Nat
deriving DecidableEq, Repr

/-- Things the code does to the outside: dialogs, log lines, process and
application control. -/
inductive Effect where
  | setClearSettings (b : Bool)
  | information (title text : String)
  | warning (title text : String)
  | startDetached
  | closeAllWindows
  | exit
  | qWarning (message : String)
  | qInfo (message : String)
  | openFile (fileName : String)
  | openUrl (url : String)
deriving DecidableEq, Repr

/-- The `QMessageBox::StandardButton` the question dialog returns. -/
inductive StandardButton where
  | Ok
  | Cancel
  | NoButton
deriving DecidableEq, Repr

/-- The window and what it reaches: settings singleton, menu bar, Links
menu, the "Exit to Sysytem Tray" action (checked state, once created), its
visibility, the static nav button group, the central stack, the tool bar,
the "Hide Text" button, the text files on disk by name, and the trace of
effects so far, oldest first. -/
structure MainWindow where
  m_settingsKey : SettingsKey
  settings : xToolsSettings
  menuBar : List MenuId
  linksMenu : List MenuItem
  exitToTrayAction : Option Bool
  visible : Bool
  btGroup : List QToolButton
  stackedWidget : QStackedWidget
  toolBar : List ToolBarItem
  tbt : Option QToolButton
  files : String → Option String
  trace : List Effect

/-- What the build and the classes outside the supplied sources provide:
the two repository URL macros, for every supported communication tool the
nav entry of its tool box (cooked window icon, window title, page), and the
pages of the optional Modbus and CANBus modules (`none` when the module is
not compiled in). -/
structure BuildConfig where
  X_TOOLS_GITHUB_REPOSITORY_URL : String
  X_TOOLS_GITEE_REPOSITORY_URL : String
  toolBoxes : List NavContext
  modbusStudio : Option Nat
  canBusStudio : Option Nat

/-! ## Menu bar (lines 92-100, 162-165, 245-296) -/

/-- Insert `a` right before the first `before`, or at the end when `before`
does not occur. -/
def insertBefore (before a : MenuId) : List MenuId → List MenuId
  | [] => [a]
  | x :: xs => if x = before then a :: x :: xs else x :: insertBefore before a xs

/-- Embedding of `menuBar()->insertMenu(before->menuAction(), menu)`: as
`QWidget::insertAction`, the menu is taken out if the bar already has it,
then put before `before`, or appended when `before` is not in the bar. -/
def insertMenu (before menu : MenuId) (bar : List MenuId) : List MenuId :=
  insertBefore before menu (bar.erase menu)

/-- Embedding of `MainWindow::initFileMenu`: fills the File menu; the menu bar and the
rest of the modelled state are not touched. -/
def initFileMenu (w : MainWindow) : MainWindow := w

/-- Embedding of `MainWindow::initToolMenu`: the new Tools menu goes into the bar before
the Language menu (line 165); its entries are outside the modelled state. -/
def initToolMenu (w : MainWindow) : MainWindow :=
  { w with menuBar := insertMenu .m_languageMenu .toolMenu w.menuBar }

/-- Embedding of `MainWindow::initOptionMenu`, lines 186-205: a new checkable action,
unchecked, whose checked state is set from the stored value unless that
value is null. -/
def initOptionMenu (w : MainWindow) : MainWindow :=
  let action : Bool := false
  let v := w.settings.value w.m_settingsKey.exitToSystemTray
  let action := if !v.isNull then v.toBool else action
  { w with exitToTrayAction := some action }

/-- The lambda connected to the action's `triggered` signal, lines 201-204. -/
def onExitToTrayTriggered (w : MainWindow) : MainWindow :=
  match w.exitToTrayAction with
  | none => w
  | some keep =>
    { w with settings :=
        w.settings.setValue w.m_settingsKey.exitToSystemTray (QVariant.ofBool keep) }

/-- The user activates the checkable action: its checked state flips, then
`triggered` is emitted. -/
def triggerExitToTray (w : MainWindow) : MainWindow :=
  onExitToTrayTriggered { w with exitToTrayAction := w.exitToTrayAction.map (fun b => !b) }

/-- Embedding of `MainWindow::initLanguageMenu`: empty body. -/
def initLanguageMenu (w : MainWindow) : MainWindow := w

/-- The link list of `initLinksMenu`, lines 256-280, as (name, url, icon). -/
def linkList (cfg : BuildConfig) : List (String × String × String) :=
  [ ("Qt Official Download", "http://download.qt.io/official_releases/qt",
      ":/resources/images/Qt.png"),
    ("Qt Official Blog", "https://www.qt.io/blog", ":/resources/images/Qt.png"),
    ("Qt Official Release", "https://wiki.qt.io/Qt_5.15_Release", ":/resources/images/Qt.png"),
    ("", "", ""),
    ("Download xTools from Github", cfg.X_TOOLS_GITHUB_REPOSITORY_URL ++ "/releases",
      ":/Resources/Icons/GitHub.svg"),
    ("Download xTools from Gitee", cfg.X_TOOLS_GITEE_REPOSITORY_URL ++ "/releases",
      ":/Resources/Icons/Gitee.svg"),
    ("", "", ""),
    ("Office Web Site", "https://qsaker.gitee.io/qsak/", ":/Resources/Images/I18n.png") ]

/-- The loop body of lines 282-295 for one link. -/
def linkItem (var : String × String × String) : MenuItem :=
  if var.2.1.isEmpty then .separator else .action var.2.2 var.1 var.2.1

/-- Embedding of `MainWindow::initLinksMenu`: the new Links menu goes into the bar before
the Help menu (line 248) and gets one entry per link. -/
def initLinksMenu (cfg : BuildConfig) (w : MainWindow) : MainWindow :=
  { w with menuBar := insertMenu .m_helpMenu .linksMenu w.menuBar
           linksMenu := (linkList cfg).map linkItem }

/-- Embedding of `MainWindow::initHelpMenu`: fills the Help menu; the menu bar and the
rest of the modelled state are not touched. -/
def initHelpMenu (w : MainWindow) : MainWindow := w

/-- Embedding of `MainWindow::initMenuBar`, lines 92-100. -/
def initMenuBar (cfg : BuildConfig) (w : MainWindow) : MainWindow :=
  initHelpMenu (initLinksMenu cfg (initLanguageMenu (initOptionMenu (initToolMenu (initFileMenu w)))))

/-- Embedding of `MainWindow::closeEvent(event)` of the Windows build, lines 103-111, on
an event whose accepted flag is `accepted`: the window and the flag after. -/
def closeEvent (accepted : Bool) (w : MainWindow) : MainWindow × Bool :=
  let key := w.m_settingsKey.exitToSystemTray
  let ignore := (w.settings.value key).toBool
  if ignore then ({ w with visible := false }, false) else (w, accepted)

/-! ## Navigation (lines 298-404) -/

/-- The tool-button style chosen from the stored flag (lines 341, 356, 373). -/
def styleOf (isTextBesideIcon : Bool) : ToolButtonStyle :=
  if isTextBesideIcon then .ToolButtonTextBesideIcon else .ToolButtonIconOnly

/-- Embedding of `MainWindow::initNav(const NavContext& ctx)`, lines 369-404.
The button group is exclusive, so `bt->setChecked(true)` leaves the new
button as the only checked one.  `pageCount` is the button count after
`addButton`; button counts stay far below `2^31`, so `int` arithmetic on
them is exact. -/
def initNavCtx (ctx : NavContext) (w : MainWindow) : MainWindow :=
  let key := w.m_settingsKey.isTextBesideIcon
  let isTextBesideIcon := (w.settings.value key).toBool
  let style := styleOf isTextBesideIcon
  let pageCount : Int := ((w.btGroup.length + 1 : Nat) : Int)
  let bt : QToolButton :=
    { icon := ctx.icon
      text := " " ++ ctx.name
      toolTip := ctx.name
      autoRaise := true
      checkable := true
      checked := false
      toolButtonStyle := style
      clicked := [NavSlot.showPage pageCount] }
  let tb := w.toolBar ++ [ToolBarItem.navButton w.btGroup.length]
  let stackedWidget := w.stackedWidget.addWidget ctx.page
  if (w.settings.value w.m_settingsKey.pageIndex).toInt = pageCount - 1 then
    { w with btGroup := w.btGroup.map (fun b => { b with checked := false })
                          ++ [{ bt with checked := true }]
             toolBar := tb
             stackedWidget := stackedWidget.setCurrentIndex (pageCount - 1) }
  else
    { w with btGroup := w.btGroup ++ [bt]
             toolBar := tb
             stackedWidget := stackedWidget }

/-- A run of `initNav(ctx)` calls, first to last. -/
def initNavAll (ctxs : List NavContext) (w : MainWindow) : MainWindow :=
  ctxs.foldl (fun acc ctx => initNavCtx ctx acc) w

/-- Embedding of `MainWindow::initNav()`, lines 298-367: a new tool bar, one
nav entry per tool box and per compiled-in module, then the "Hide Text"
button.  The button group is static, so it is taken as the window has it. -/
def initNav (cfg : BuildConfig) (w : MainWindow) : MainWindow :=
  let w0 := { w with toolBar := [] }
  let w1 := initNavAll cfg.toolBoxes w0
  let w2 := { w1 with toolBar := w1.toolBar ++ [ToolBarItem.separator] }
  let w3 :=
    match cfg.modbusStudio with
    | none => w2
    | some modbus =>
      initNavCtx { icon := ":/Resources/Icons/IconModbus.svg", name := "Modbus Studio",
                   page := modbus } w2
  let w4 :=
    match cfg.canBusStudio with
    | none => w3
    | some canbus =>
      initNavCtx { icon := ":/Resources/Icons/IconCanBus.svg", name := "CANBus Studio",
                   page := canbus } w3
  let w5 := { w4 with toolBar := w4.toolBar ++ [ToolBarItem.label " ", ToolBarItem.separator] }
  let key := w5.m_settingsKey.isTextBesideIcon
  let isTextBesideIcon := (w5.settings.value key).toBool
  let style := styleOf isTextBesideIcon
  let tbt : QToolButton :=
    { icon := ":/Resources/Icons/IconListWithIcon.svg"
      text := " " ++ "Hide Text"
      toolTip := "Click to show(hide) nav text"
      autoRaise := true
      checkable := true
      checked := isTextBesideIcon
      toolButtonStyle := style
      clicked := [NavSlot.toggleText key] }
  { w5 with tbt := some tbt
            toolBar := w5.toolBar ++ [ToolBarItem.hideText, ToolBarItem.separator] }

/-- The body of a lambda connected to `clicked`: lines 396-397 for a page
button, lines 355-363 for the "Hide Text" button. -/
def runNavSlot (w : MainWindow) : NavSlot → MainWindow
  | .showPage pageCount =>
    { w with stackedWidget := w.stackedWidget.setCurrentIndex (pageCount - 1)
             settings := w.settings.setValue w.m_settingsKey.pageIndex
                           (QVariant.ofInt (pageCount - 1)) }
  | .toggleText key =>
    match w.tbt with
    | none => w
    | some tbt =>
      let style := styleOf tbt.checked
      { w with tbt := some { tbt with toolButtonStyle := style }
               btGroup := w.btGroup.map (fun bt => { bt with toolButtonStyle := style })
               settings := w.settings.setValue key (QVariant.ofBool tbt.checked) }

/-- The check states of an exclusive group after its `k`-th button is
clicked: that button checked, every other one unchecked. -/
def setCheckedAt : Nat → List QToolButton → List QToolButton
  | _, [] => []
  | 0, b :: bs => { b with checked := true } :: bs.map (fun x => { x with checked := false })
  | k + 1, b :: bs => { b with checked := false } :: setCheckedAt k bs

/-- A user click on the `k`-th button of the nav group: the check states
change, then the slots connected to its `clicked` signal run in order. -/
def clickNav (k : Nat) (w : MainWindow) : MainWindow :=
  match w.btGroup.get? k with
  | none => w
  | some bt =>
    let w1 := if bt.checkable then { w with btGroup := setCheckedAt k w.btGroup } else w
    bt.clicked.foldl runNavSlot w1

/-- A user click on the "Hide Text" button: it is checkable and in no group,
so its checked state flips, then its slots run in order. -/
def clickHideText (w : MainWindow) : MainWindow :=
  match w.tbt with
  | none => w
  | some tbt =>
    let tbt1 := if tbt.checkable then { tbt with checked := !tbt.checked } else tbt
    tbt1.clicked.foldl runNavSlot { w with tbt := some tbt1 }

/-- The button `initNav(ctx)` creates, with its final checked state. -/
def navButton (ctx : NavContext) (w : MainWindow) : QToolButton :=
  { icon := ctx.icon
    text := " " ++ ctx.name
    toolTip := ctx.name
    autoRaise := true
    checkable := true
    checked := decide ((w.settings.value w.m_settingsKey.pageIndex).toInt = (w.btGroup.length : Int))
    toolButtonStyle := styleOf (w.settings.value w.m_settingsKey.isTextBesideIcon).toBool
    clicked := [NavSlot.showPage ((w.btGroup.length : Int) + 1)] }

/-- Wiring of the page buttons: the `k`-th button of the group is checkable
and its one slot holds `pageCount = k + 1`. -/
def NavWired (l : List QToolButton) : Prop :=
  ∀ (k : Nat) (b : QToolButton), l[k]? = some b →
    b.clicked = [NavSlot.showPage ((k : Int) + 1)] ∧ b.checkable = true

/-- What the user can click in the navigation bar: the `k`-th page button or
the "Hide Text" button. -/
inductive NavClick where
  | button (k : Nat)
  | hideText
deriving DecidableEq, Repr

/-- One user click in the navigation bar. -/
def userClick (w : MainWindow) : NavClick → MainWindow
  | .button k => clickNav k w
  | .hideText => clickHideText w

/-- A run of user clicks, first to last. -/
def userClicks (cs : List NavClick) (w : MainWindow) : MainWindow :=
  cs.foldl userClick w

/-- What a click never changes in a button: its slots and whether it is
checkable. -/
def QToolButton.wiring (b : QToolButton) : List NavSlot × Bool := (b.clicked, b.checkable)

/-! ## Reboot request and Qt configuration file (lines 472-496, 564-578) -/

/-- Embedding of `MainWindow::rebootRequestion`, lines 478-496, given the
button the user answers the question with and the result of
`QProcess::startDetached`. -/
def rebootRequestion (answer : StandardButton) (started : Bool) (w : MainWindow) :
    MainWindow :=
  let w1 := { w with trace := w.trace ++
    [Effect.information "Reboot application to effective" "Need to reboot, reboot to effective now?"] }
  if answer ≠ .Ok then w1
  else
    let w2 := { w1 with trace := w1.trace ++ [Effect.startDetached] }
    if started then
      { w2 with trace := w2.trace ++ [Effect.closeAllWindows, Effect.exit] }
    else
      { w2 with trace := w2.trace ++
          [Effect.warning "Reboot Error" "Can not reboot the application, pelase reboot it manually!"] }

/-- Embedding of `MainWindow::clearConfiguration`, lines 472-476. -/
def clearConfiguration (answer : StandardButton) (started : Bool) (w : MainWindow) :
    MainWindow :=
  rebootRequestion answer started
    { w with settings := w.settings.setClearSettings true
             trace := w.trace ++ [Effect.setClearSettings true] }

/-- The text `createQtConf` streams into the file, line 575. -/
def qtConfText : String := "[Platforms]\nWindowsArguments = dpiawareness=0\n"

/-- Embedding of `MainWindow::createQtConf`, lines 564-578, for the file name
`qtConfFileName()` returns; `openError` is `none` when `file.open` succeeds
and the file's `errorString()` when it fails. -/
def createQtConf (fileName : String) (openError : Option String) (w : MainWindow) :
    MainWindow :=
  let w1 := { w with trace := w.trace ++ [Effect.openFile fileName] }
  match openError with
  | some errorString =>
    { w1 with trace := w1.trace ++
        [Effect.qWarning ("Can not open file(" ++ fileName ++ "): " ++ errorString)] }
  | none =>
    { w1 with files := fun f => if f = fileName then some qtConfText else w1.files f
              trace := w1.trace ++
                [Effect.qInfo ("Create Qt configuration file successfully: " ++ fileName)] }

/-- Whether an effect is a dialog shown to the user. -/
def Effect.isDialog : Effect → Bool
  | .information _ _ => true
  | .warning _ _ => true
  | _ => false

/-- A window before `MainWindow` has set anything up: the given keys and
settings, a menu bar holding `bar`, nothing else. -/
def MainWindow.base (keys : SettingsKey) (settings : xToolsSettings) (bar : List MenuId) :
    MainWindow :=
  { m_settingsKey := keys
    settings := settings
    menuBar := bar
    linksMenu := []
    exitToTrayAction := none
    visible := true
    btGroup := []
    stackedWidget := QStackedWidget.empty
    toolBar := []
    tbt := none
    files := fun _ => none
    trace := [] }

/-- Key strings used in the worked examples. -/
def exampleKeys : SettingsKey :=
  { exitToSystemTray := "exitToSystemTray"
    isTextBesideIcon := "isTextBesideIcon"
    pageIndex := "pageIndex" }

/-! ## Repeated set-up of the storer page, Links menu actions, column keys -/

/-- The four connections `setupStorer` makes on each call, lines 49-60, in
the order it makes them. -/
def storerHandlers : List Connection :=
  [ { sender := .checkBoxEnable, receiver := .this, slot := .setEnable },
    { sender := .checkBoxDate, receiver := .this, slot := .setSaveDate },
    { sender := .checkBoxDate, receiver := .this, slot := .setSaveTime },
    { sender := .checkBoxMs, receiver := .this, slot := .setSaveMs } ]

/-- Copies of the four connections, `n` times over. -/
def handlerCopies : Nat → List Connection
  | 0 => []
  | n + 1 => handlerCopies n ++ storerHandlers

/-- A run of `setupStorer(tool)` calls with non-null tools, first to last. -/
def setupStorerAll (tools : List Nat) (w : StorerWorld) : StorerWorld :=
  tools.foldl (fun acc t => setupStorer (some t) acc) w

/-- A run of user clicks on check boxes of the page, first to last. -/
def clickAll (cbs : List CheckBox) (w : StorerWorld) : StorerWorld :=
  cbs.foldl (fun acc cb => click cb acc) w

/-- The slots a click on a check box runs, in order: those of the
connections whose sender is that box. -/
def slotsOf (cb : CheckBox) (cs : List Connection) : List Slot :=
  (cs.filter (fun c => decide (c.sender = cb))).map (fun c => c.slot)

/-- The user triggers the `i`-th entry of the Links menu.  For an action the
lambda of lines 292-294 runs: it opens the URL held in the object name of the
sender, which is that action.  A separator cannot be triggered. -/
def triggerLink (i : Nat) (w : MainWindow) : MainWindow :=
  match w.linksMenu.get? i with
  | some (.action _ _ objectName) => { w with trace := w.trace ++ [Effect.openUrl objectName] }
  | _ => w

/-- Whether a menu entry is an action. -/
def MenuItem.isAction : MenuItem → Bool
  | .action _ _ _ => true
  | .separator => false

/-- Embedding of `SocketClientTransmitter::ItemContextKeys`
(src/Source/IO/IO/Model/SocketClientTransmitter.h, lines 22-32): seven
constant strings, each with its member initialiser. -/
structure ItemContextKeys where
  enable : String := "Enable"
  clientIp : String := "ClientIp"
  clientPort : String := "ClientPort"
  specifiedClientIpPort : String := "SpecifiedClientIpAndPort"
  serverIp : String := "ServerIp"
  serverPort : String := "ServerPort"
  messageType : String := "MessageType"
deriving DecidableEq, Repr

/-- All members of the struct, in declaration order. -/
def ItemContextKeys.all (k : ItemContextKeys) : List String :=
  [k.enable, k.clientIp, k.clientPort, k.specifiedClientIpPort, k.serverIp, k.serverPort,
    k.messageType]

/-! ## Theorems: SAKStorerToolUi -/

/-- C1 (failing case): on a fresh page, after `setupStorer` with the tool at
address 0, a click on the Time check box checks it, yet the tool's
`saveTime` flag stays `false`: the third lambda is connected to
`checkBoxDate`, so `checkBoxTime` has no slot at all. -/
theorem C1_time_click_not_forwarded :
    (click .checkBoxTime (setupStorer (some 0) StorerWorld.fresh)).ui.checkBoxTime = true ∧
    ((click .checkBoxTime (setupStorer (some 0) StorerWorld.fresh)).tools 0).saveTime = false ∧
    ((setupStorer (some 0) StorerWorld.fresh).ui.connections.filter
        (fun c => decide (c.sender = CheckBox.checkBoxTime))) = [] := by
  decide

/-- C2: after `setupStorer(tool)` with a non-null tool, for every page
state, the tool's four flags equal the checked states of the four check
boxes, which the call leaves as they were, and `mTool` is the tool passed
in. -/
theorem C2_setupStorer_syncs_flags (t : Nat) (w : StorerWorld) :
    ((setupStorer (some t) w).tools t).enable = (setupStorer (some t) w).ui.checkBoxEnable ∧
    ((setupStorer (some t) w).tools t).saveDate = (setupStorer (some t) w).ui.checkBoxDate ∧
    ((setupStorer (some t) w).tools t).saveTime = (setupStorer (some t) w).ui.checkBoxTime ∧
    ((setupStorer (some t) w).tools t).saveMs = (setupStorer (some t) w).ui.checkBoxMs ∧
    (setupStorer (some t) w).ui.mTool = some t ∧
    (∀ cb, (setupStorer (some t) w).ui.isChecked cb = w.ui.isChecked cb) := by
  refine ⟨?_, ?_, ?_, ?_, ?_, ?_⟩ <;> try simp [setupStorer, setTool]
  intro cb; cases cb <;> rfl

theorem runSlot_ui (w : StorerWorld) (s : Slot) : (runSlot w s).ui = w.ui := by
  cases s <;> simp only [runSlot] <;> split <;> rfl

theorem runSlot_flag_self (w : StorerWorld) (s : Slot) (t : Nat) (h : w.ui.mTool = some t) :
    ((runSlot w s).tools t).flag s.box = w.ui.isChecked s.box := by
  cases s <;> simp [runSlot, h, setTool, SAKStorerTool.flag, Slot.box, SAKStorerToolUi.isChecked]

theorem runSlot_flag_keep (w : StorerWorld) (s : Slot) (t : Nat) (cb : CheckBox)
    (h : w.ui.mTool = some t) (hs : (w.tools t).flag cb = w.ui.isChecked cb) :
    ((runSlot w s).tools t).flag cb = w.ui.isChecked cb := by
  cases s <;> cases cb <;>
    simp_all [runSlot, setTool, SAKStorerTool.flag, SAKStorerToolUi.isChecked]

theorem emitClicked_ui (cb : CheckBox) (cs : List Connection) (w : StorerWorld) :
    (emitClicked cb cs w).ui = w.ui := by
  induction cs generalizing w with
  | nil => rfl
  | cons c cs ih =>
    simp only [emitClicked, List.foldl_cons] at ih ⊢
    rw [ih]
    split
    · exact runSlot_ui w c.slot
    · rfl

theorem emitClicked_flag_keep (cb : CheckBox) (cs : List Connection) (w : StorerWorld)
    (t : Nat) (b : CheckBox) (h : w.ui.mTool = some t)
    (hs : (w.tools t).flag b = w.ui.isChecked b) :
    ((emitClicked cb cs w).tools t).flag b = w.ui.isChecked b := by
  induction cs generalizing w with
  | nil => exact hs
  | cons c cs ih =>
    simp only [emitClicked, List.foldl_cons] at ih ⊢
    split
    · have hu := runSlot_ui w c.slot
      rw [← hu]
      exact ih _ (by rw [hu]; exact h) (by rw [hu]; exact runSlot_flag_keep w c.slot t b h hs)
    · exact ih w h hs

theorem emitClicked_flag_of_mem (cb : CheckBox) (cs : List Connection) (w : StorerWorld)
    (t : Nat) (c : Connection) (h : w.ui.mTool = some t) (hc : c ∈ cs) (hcb : c.sender = cb) :
    ((emitClicked cb cs w).tools t).flag c.slot.box = w.ui.isChecked c.slot.box := by
  induction cs generalizing w with
  | nil => cases hc
  | cons d cs ih =>
    have hu := runSlot_ui w d.slot
    rcases List.mem_cons.mp hc with rfl | hmem
    · have hstep : emitClicked cb (c :: cs) w = emitClicked cb cs (runSlot w c.slot) := by
        simp [emitClicked, hcb]
      rw [hstep, ← hu]
      exact emitClicked_flag_keep cb cs _ t _ (by rw [hu]; exact h)
        (by rw [hu]; exact runSlot_flag_self w c.slot t h)
    · by_cases hd : d.sender = cb
      · have hstep : emitClicked cb (d :: cs) w = emitClicked cb cs (runSlot w d.slot) := by
          simp [emitClicked, hd]
        rw [hstep, ← hu]
        exact ih _ (by rw [hu]; exact h) hmem
      · have hstep : emitClicked cb (d :: cs) w = emitClicked cb cs w := by
          simp [emitClicked, hd]
        rw [hstep]
        exact ih w h hmem

/-- After `setupStorer(tool)` with a non-null tool, whatever the page held
before, a click on the Enable, Date or Ms check box leaves the tool's flag of
that box equal to the box's new checked state. -/
theorem click_forwards_enable_date_ms (t : Nat) (w : StorerWorld) (cb : CheckBox)
    (hcb : cb ≠ .checkBoxTime) :
    ((click cb (setupStorer (some t) w)).tools t).flag cb
      = (click cb (setupStorer (some t) w)).ui.isChecked cb := by
  have hui : (click cb (setupStorer (some t) w)).ui = (setupStorer (some t) w).ui.toggle cb := by
    simp only [click]; rw [emitClicked_ui]
  rw [hui]
  have hm : ((setupStorer (some t) w).ui.toggle cb).mTool = some t := by
    cases cb <;> simp [setupStorer, SAKStorerToolUi.toggle]
  cases cb with
  | checkBoxTime => exact absurd rfl hcb
  | checkBoxEnable =>
    exact emitClicked_flag_of_mem .checkBoxEnable _
      { ui := (setupStorer (some t) w).ui.toggle .checkBoxEnable,
        tools := (setupStorer (some t) w).tools } t
      { sender := .checkBoxEnable, receiver := .this, slot := .setEnable } hm
      (by simp [setupStorer, SAKStorerToolUi.toggle]) rfl
  | checkBoxDate =>
    exact emitClicked_flag_of_mem .checkBoxDate _
      { ui := (setupStorer (some t) w).ui.toggle .checkBoxDate,
        tools := (setupStorer (some t) w).tools } t
      { sender := .checkBoxDate, receiver := .this, slot := .setSaveDate } hm
      (by simp [setupStorer, SAKStorerToolUi.toggle]) rfl
  | checkBoxMs =>
    exact emitClicked_flag_of_mem .checkBoxMs _
      { ui := (setupStorer (some t) w).ui.toggle .checkBoxMs,
        tools := (setupStorer (some t) w).tools } t
      { sender := .checkBoxMs, receiver := .this, slot := .setSaveMs } hm
      (by simp [setupStorer, SAKStorerToolUi.toggle]) rfl

/-! ## Theorems: close event, option menu, reboot request, Qt configuration file -/

/-- C5: `closeEvent` consults the exit-to-tray flag.  If the stored value
converts to `true` the window is hidden and the event ignored; if it converts
to `false`, as an absent value does, the window is untouched and the event's
accepted flag is the one received. -/
theorem C5_closeEvent_exit_to_tray (accepted : Bool) (w : MainWindow) :
    ((w.settings.value w.m_settingsKey.exitToSystemTray).toBool = true →
      (closeEvent accepted w).1.visible = false ∧ (closeEvent accepted w).2 = false) ∧
    ((w.settings.value w.m_settingsKey.exitToSystemTray).toBool = false →
      (closeEvent accepted w).1.visible = w.visible ∧ (closeEvent accepted w).2 = accepted) ∧
    (w.settings.store w.m_settingsKey.exitToSystemTray = none →
      (closeEvent accepted w).1.visible = w.visible ∧ (closeEvent accepted w).2 = accepted) := by
  refine ⟨fun h => ?_, fun h => ?_, fun h => ?_⟩
  · simp [closeEvent, h]
  · simp [closeEvent, h]
  · simp [closeEvent, xToolsSettings.value, h, QVariant.invalid]

/-- C5 at concrete inputs: with `true` stored a visible window is hidden and
an accepted event ignored; with nothing stored both stay as they were. -/
theorem C5_closeEvent_exit_to_tray_witness :
    ((closeEvent true (MainWindow.base exampleKeys
        (xToolsSettings.blank.setValue "exitToSystemTray" (QVariant.ofBool true)) [])).1.visible = false ∧
      (closeEvent true (MainWindow.base exampleKeys
        (xToolsSettings.blank.setValue "exitToSystemTray" (QVariant.ofBool true)) [])).2 = false) ∧
    ((closeEvent true (MainWindow.base exampleKeys xToolsSettings.blank [])).1.visible = true ∧
      (closeEvent true (MainWindow.base exampleKeys xToolsSettings.blank [])).2 = true) :=
  ⟨(C5_closeEvent_exit_to_tray true (MainWindow.base exampleKeys
      (xToolsSettings.blank.setValue "exitToSystemTray" (QVariant.ofBool true)) [])).1 (by decide),
   (C5_closeEvent_exit_to_tray true (MainWindow.base exampleKeys xToolsSettings.blank [])).2.2 rfl⟩

/-- C6: the exit-to-tray option round-trips through the settings store.
The `triggered` lambda run while the action's checked state is `b` stores
`b`; a user activation from the state `!b` does the same; `initOptionMenu`
on any window that reads that store sets the action's checked state to `b`.
With the key absent the action stays unchecked, and `initOptionMenu` never
writes to the store. -/
theorem C6_exit_to_tray_round_trip (b : Bool) (w w2 : MainWindow) :
    (onExitToTrayTriggered { w with exitToTrayAction := some b }).settings.value
        w.m_settingsKey.exitToSystemTray = QVariant.ofBool b ∧
    (triggerExitToTray { w with exitToTrayAction := some (!b) }).settings.value
        w.m_settingsKey.exitToSystemTray = QVariant.ofBool b ∧
    (initOptionMenu { w2 with
        settings := (onExitToTrayTriggered { w with exitToTrayAction := some b }).settings
        m_settingsKey := w.m_settingsKey }).exitToTrayAction = some b ∧
    (w.settings.store w.m_settingsKey.exitToSystemTray = none →
      (initOptionMenu w).exitToTrayAction = some false) ∧
    (initOptionMenu w).settings = w.settings := by
  refine ⟨?_, ?_, ?_, fun h => ?_, rfl⟩
  · simp [onExitToTrayTriggered, xToolsSettings.setValue, xToolsSettings.value]
  · simp [triggerExitToTray, onExitToTrayTriggered, xToolsSettings.setValue, xToolsSettings.value]
  · simp [initOptionMenu, onExitToTrayTriggered, xToolsSettings.setValue, xToolsSettings.value,
      QVariant.ofBool]
  · simp [initOptionMenu, xToolsSettings.value, h, QVariant.invalid]

/-- C6 at a concrete input: with nothing stored, `initOptionMenu` leaves the
action unchecked. -/
theorem C6_exit_to_tray_round_trip_witness :
    (initOptionMenu (MainWindow.base exampleKeys xToolsSettings.blank [])).exitToTrayAction
      = some false :=
  (C6_exit_to_tray_round_trip true (MainWindow.base exampleKeys xToolsSettings.blank [])
    (MainWindow.base exampleKeys xToolsSettings.blank [])).2.2.2.1 rfl

/-- C8: `rebootRequestion` asks once and never retries.  Any answer but Ok
adds the question alone to the trace; Ok with a successful start adds the
question, one `startDetached`, `closeAllWindows` and `exit`; Ok with a failed
start adds the question, one `startDetached` and the "Reboot Error" warning,
and neither `closeAllWindows` nor `exit`.  `clearConfiguration` sets the
clear-settings flag first, then asks the question, and the flag is set at
the end whatever the answer and the start result; `rebootRequestion` itself
leaves the settings alone. -/
theorem C8_reboot_request (answer : StandardButton) (started : Bool) (w : MainWindow) :
    (answer ≠ .Ok → (rebootRequestion answer started w).trace = w.trace ++
      [Effect.information "Reboot application to effective"
        "Need to reboot, reboot to effective now?"]) ∧
    (rebootRequestion .Ok true w).trace = w.trace ++
      [Effect.information "Reboot application to effective"
        "Need to reboot, reboot to effective now?",
       Effect.startDetached, Effect.closeAllWindows, Effect.exit] ∧
    (rebootRequestion .Ok false w).trace = w.trace ++
      [Effect.information "Reboot application to effective"
        "Need to reboot, reboot to effective now?",
       Effect.startDetached,
       Effect.warning "Reboot Error" "Can not reboot the application, pelase reboot it manually!"] ∧
    (rebootRequestion answer started w).settings = w.settings ∧
    (clearConfiguration answer started w).settings.clearSettings = true ∧
    (w.trace ++ [Effect.setClearSettings true,
        Effect.information "Reboot application to effective"
          "Need to reboot, reboot to effective now?"])
      <+: (clearConfiguration answer started w).trace := by
  refine ⟨fun h => ?_, ?_, ?_, ?_, ?_, ?_⟩
  · simp [rebootRequestion, h]
  · simp [rebootRequestion]
  · simp [rebootRequestion]
  · unfold rebootRequestion; split <;> [rfl; (split <;> rfl)]
  · unfold clearConfiguration rebootRequestion
    split <;> [rfl; (split <;> rfl)]
  · unfold clearConfiguration rebootRequestion
    split
    · simp
    · split
      · exact ⟨[Effect.startDetached, Effect.closeAllWindows, Effect.exit], by simp⟩
      · exact ⟨[Effect.startDetached, Effect.warning "Reboot Error"
          "Can not reboot the application, pelase reboot it manually!"], by simp⟩

/-- C8 at a concrete input: answering Cancel leaves the question as the only
effect. -/
theorem C8_reboot_request_witness :
    (rebootRequestion .Cancel true (MainWindow.base exampleKeys xToolsSettings.blank [])).trace =
      [Effect.information "Reboot application to effective"
        "Need to reboot, reboot to effective now?"] :=
  (C8_reboot_request .Cancel true (MainWindow.base exampleKeys xToolsSettings.blank [])).1
    (by decide)

/-- C9 (as stated, refuted): when the open fails for the file "qt.conf" with
the error "Permission denied", the effects are the open attempt and one
`qWarning` log line; no dialog is among them. -/
theorem C9_open_failure_shows_no_dialog :
    (createQtConf "qt.conf" (some "Permission denied")
        (MainWindow.base exampleKeys xToolsSettings.blank [])).trace =
      [Effect.openFile "qt.conf",
       Effect.qWarning "Can not open file(qt.conf): Permission denied"] ∧
    (createQtConf "qt.conf" (some "Permission denied")
        (MainWindow.base exampleKeys xToolsSettings.blank [])).trace.any Effect.isDialog = false := by
  decide

/-- C9 (amended): when the open fails, `createQtConf` opens once, logs one
`qWarning` line naming the file and the error, shows no dialog and writes no
file; when the open succeeds, it opens once, the named file holds exactly
the two configuration lines, every other file is as before, and one `qInfo`
line is logged. -/
theorem C9_createQtConf (fileName errorString : String) (w : MainWindow) :
    (createQtConf fileName (some errorString) w).trace = w.trace ++
      [Effect.openFile fileName,
       Effect.qWarning ("Can not open file(" ++ fileName ++ "): " ++ errorString)] ∧
    ([Effect.openFile fileName,
       Effect.qWarning ("Can not open file(" ++ fileName ++ "): " ++ errorString)].any
        Effect.isDialog = false) ∧
    (createQtConf fileName (some errorString) w).files = w.files ∧
    (createQtConf fileName none w).trace = w.trace ++
      [Effect.openFile fileName,
       Effect.qInfo ("Create Qt configuration file successfully: " ++ fileName)] ∧
    (createQtConf fileName none w).files fileName
      = some "[Platforms]\nWindowsArguments = dpiawareness=0\n" ∧
    (∀ other, other ≠ fileName → (createQtConf fileName none w).files other = w.files other) := by
  refine ⟨?_, ?_, rfl, ?_, ?_, ?_⟩
  · simp [createQtConf]
  · simp [Effect.isDialog]
  · simp [createQtConf]
  · simp [createQtConf, qtConfText]
  · intro other h
    simp [createQtConf, h]

/-! ## Theorems: menu bar order -/

theorem mem_insertBefore (before a x : MenuId) (l : List MenuId) :
    x ∈ insertBefore before a l ↔ x = a ∨ x ∈ l := by
  induction l with
  | nil => simp [insertBefore]
  | cons y ys ih =>
    unfold insertBefore
    split
    · simp
    · simp only [List.mem_cons, ih]
      tauto

theorem pair_infix_insertBefore_self (before a : MenuId) (l : List MenuId) (h : before ∈ l) :
    [a, before] <:+: insertBefore before a l := by
  induction l with
  | nil => cases h
  | cons y ys ih =>
    unfold insertBefore
    split
    · next hy =>
      subst hy
      exact (List.prefix_iff_eq_append.mpr (by simp) : [a, y] <+: a :: y :: ys).isInfix
    · next hy =>
      rcases List.mem_cons.mp h with rfl | hm
      · exact absurd rfl hy
      · exact List.infix_cons (ih hm)

theorem pair_infix_insertBefore_other (a b before c : MenuId) (l : List MenuId)
    (h : [a, b] <:+: l) (hne : before ≠ b) : [a, b] <:+: insertBefore before c l := by
  induction l with
  | nil => simp at h
  | cons y ys ih =>
    unfold insertBefore
    split
    · exact List.infix_cons h
    · next hy =>
      rcases List.infix_cons_iff.mp h with hp | hi
      · obtain ⟨t, ht⟩ := hp
        simp only [List.cons_append, List.nil_append, List.cons.injEq] at ht
        obtain ⟨rfl, rfl⟩ := ht
        have hb : ¬ b = before := fun e => hne e.symm
        refine (List.prefix_iff_eq_append.mpr ?_ : [a, b] <+: _).isInfix
        simp [insertBefore, hb]
      · exact List.infix_cons (ih hi)

theorem pair_infix_erase (a b c : MenuId) (l : List MenuId)
    (h : [a, b] <:+: l) (hca : c ≠ a) (hcb : c ≠ b) : [a, b] <:+: l.erase c := by
  induction l with
  | nil => simp at h
  | cons y ys ih =>
    by_cases hy : y = c
    · subst hy
      rw [List.erase_cons_head]
      rcases List.infix_cons_iff.mp h with hp | hi
      · obtain ⟨t, ht⟩ := hp
        simp only [List.cons_append, List.nil_append, List.cons.injEq] at ht
        exact absurd ht.1.symm hca
      · exact hi
    · rw [List.erase_cons_tail (by simpa using hy)]
      rcases List.infix_cons_iff.mp h with hp | hi
      · obtain ⟨t, ht⟩ := hp
        simp only [List.cons_append, List.nil_append, List.cons.injEq] at ht
        obtain ⟨rfl, rfl⟩ := ht
        have hbc : ¬ b = c := fun e => hcb e.symm
        refine (List.prefix_iff_eq_append.mpr ?_ : [a, b] <+: _).isInfix
        simp [List.erase_cons_tail, hbc]
      · exact List.infix_cons (ih hi)

theorem initMenuBar_menuBar (cfg : BuildConfig) (w : MainWindow) :
    (initMenuBar cfg w).menuBar =
      insertMenu .m_helpMenu .linksMenu (insertMenu .m_languageMenu .toolMenu w.menuBar) := rfl

theorem tools_directly_before_language (bar : List MenuId) (h : MenuId.m_languageMenu ∈ bar) :
    [MenuId.toolMenu, MenuId.m_languageMenu] <:+:
      insertMenu .m_helpMenu .linksMenu (insertMenu .m_languageMenu .toolMenu bar) := by
  unfold insertMenu
  apply pair_infix_insertBefore_other _ _ _ _ _ _ (by decide)
  apply pair_infix_erase _ _ _ _ _ (by decide) (by decide)
  apply pair_infix_insertBefore_self
  exact (List.mem_erase_of_ne (by decide)).mpr h

/-- C10 (as stated, refuted): from a base bar File, Options, Language, Help
the bar after `initMenuBar` is File, Options, Tools, Language, Links, Help;
and from no base bar at all is it File, Tools, Options, Language, Links,
Help. -/
theorem C10_order_is_not_file_tools_options :
    (∀ cfg : BuildConfig, (initMenuBar cfg (MainWindow.base exampleKeys xToolsSettings.blank
        [.m_fileMenu, .m_optionMenu, .m_languageMenu, .m_helpMenu])).menuBar =
      [.m_fileMenu, .m_optionMenu, .toolMenu, .m_languageMenu, .linksMenu, .m_helpMenu]) ∧
    ¬ ∃ (cfg : BuildConfig) (w : MainWindow), (initMenuBar cfg w).menuBar =
      [.m_fileMenu, .toolMenu, .m_optionMenu, .m_languageMenu, .linksMenu, .m_helpMenu] := by
  refine ⟨fun cfg => by rw [initMenuBar_menuBar]; decide, ?_⟩
  rintro ⟨cfg, w, h⟩
  rw [initMenuBar_menuBar] at h
  have hl : MenuId.m_languageMenu ∈ w.menuBar := by
    have h1 : MenuId.m_languageMenu ∈
        insertMenu .m_helpMenu .linksMenu (insertMenu .m_languageMenu .toolMenu w.menuBar) := by
      rw [h]; decide
    unfold insertMenu at h1
    rcases (mem_insertBefore _ _ _ _).mp h1 with h2 | h2
    · exact absurd h2 (by decide)
    · have h3 := List.mem_of_mem_erase h2
      rcases (mem_insertBefore _ _ _ _).mp h3 with h4 | h4
      · exact absurd h4 (by decide)
      · exact List.mem_of_mem_erase h4
  have hinf := tools_directly_before_language w.menuBar hl
  rw [h] at hinf
  exact absurd hinf (by decide)

/-- C10 (amended): whatever the base bar, if it holds the Language menu then
after `initMenuBar` Tools sits directly before Language, and if it holds the
Help menu then Links sits directly before Help; from the base bar File,
Options, Language, Help the order is File, Options, Tools, Language, Links,
Help. -/
theorem C10_menu_positions (cfg : BuildConfig) (w : MainWindow)
    (hl : MenuId.m_languageMenu ∈ w.menuBar) (hh : MenuId.m_helpMenu ∈ w.menuBar) :
    [MenuId.toolMenu, MenuId.m_languageMenu] <:+: (initMenuBar cfg w).menuBar ∧
    [MenuId.linksMenu, MenuId.m_helpMenu] <:+: (initMenuBar cfg w).menuBar ∧
    (w.menuBar = [.m_fileMenu, .m_optionMenu, .m_languageMenu, .m_helpMenu] →
      (initMenuBar cfg w).menuBar =
        [.m_fileMenu, .m_optionMenu, .toolMenu, .m_languageMenu, .linksMenu, .m_helpMenu]) := by
  rw [initMenuBar_menuBar]
  refine ⟨tools_directly_before_language w.menuBar hl, ?_, fun hb => by rw [hb]; decide⟩
  unfold insertMenu
  apply pair_infix_insertBefore_self
  apply (List.mem_erase_of_ne (by decide)).mpr
  apply (mem_insertBefore _ _ _ _).mpr
  right
  exact (List.mem_erase_of_ne (by decide)).mpr hh

/-- C10 (amended) at the base bar File, Options, Language, Help. -/
theorem C10_menu_positions_witness :
    (initMenuBar ⟨"", "", [], none, none⟩ (MainWindow.base exampleKeys xToolsSettings.blank
        [.m_fileMenu, .m_optionMenu, .m_languageMenu, .m_helpMenu])).menuBar =
      [.m_fileMenu, .m_optionMenu, .toolMenu, .m_languageMenu, .linksMenu, .m_helpMenu] :=
  (C10_menu_positions ⟨"", "", [], none, none⟩ (MainWindow.base exampleKeys xToolsSettings.blank
    [.m_fileMenu, .m_optionMenu, .m_languageMenu, .m_helpMenu]) (by decide) (by decide)).2.2 rfl

/-! ## Theorems: navigation -/

theorem initNavCtx_settings (ctx : NavContext) (w : MainWindow) :
    (initNavCtx ctx w).settings = w.settings := by
  unfold initNavCtx
  simp only []
  split <;> rfl

theorem initNavCtx_keys (ctx : NavContext) (w : MainWindow) :
    (initNavCtx ctx w).m_settingsKey = w.m_settingsKey := by
  unfold initNavCtx
  simp only []
  split <;> rfl

theorem initNavCtx_tbt (ctx : NavContext) (w : MainWindow) :
    (initNavCtx ctx w).tbt = w.tbt := by
  unfold initNavCtx
  simp only []
  split <;> rfl

theorem initNavCtx_btGroup (ctx : NavContext) (w : MainWindow) :
    (initNavCtx ctx w).btGroup =
      (if (w.settings.value w.m_settingsKey.pageIndex).toInt = (w.btGroup.length : Int)
        then w.btGroup.map (fun b => { b with checked := false }) else w.btGroup)
        ++ [navButton ctx w] := by
  unfold initNavCtx navButton
  simp only [Nat.cast_add, Nat.cast_one, add_sub_cancel_right]
  split <;> simp [*]

theorem initNavCtx_stackedWidget (ctx : NavContext) (w : MainWindow) :
    (initNavCtx ctx w).stackedWidget =
      if (w.settings.value w.m_settingsKey.pageIndex).toInt = (w.btGroup.length : Int)
        then (w.stackedWidget.addWidget ctx.page).setCurrentIndex (w.btGroup.length : Int)
        else w.stackedWidget.addWidget ctx.page := by
  unfold initNavCtx
  simp only [Nat.cast_add, Nat.cast_one, add_sub_cancel_right]
  split <;> simp [*]

theorem initNavCtx_length (ctx : NavContext) (w : MainWindow) :
    (initNavCtx ctx w).btGroup.length = w.btGroup.length + 1 := by
  rw [initNavCtx_btGroup]; split <;> simp

theorem initNavCtx_pages (ctx : NavContext) (w : MainWindow) :
    (initNavCtx ctx w).stackedWidget.pages = w.stackedWidget.pages ++ [ctx.page] := by
  rw [initNavCtx_stackedWidget]
  split <;> simp [QStackedWidget.addWidget, QStackedWidget.setCurrentIndex]

theorem initNavAll_append (l : List NavContext) (a : NavContext) (w : MainWindow) :
    initNavAll (l ++ [a]) w = initNavCtx a (initNavAll l w) := by
  simp [initNavAll, List.foldl_append]

theorem initNavAll_settings (l : List NavContext) (w : MainWindow) :
    (initNavAll l w).settings = w.settings := by
  induction l using List.reverseRecOn with
  | nil => rfl
  | append_singleton l a ih => rw [initNavAll_append, initNavCtx_settings, ih]

theorem initNavAll_keys (l : List NavContext) (w : MainWindow) :
    (initNavAll l w).m_settingsKey = w.m_settingsKey := by
  induction l using List.reverseRecOn with
  | nil => rfl
  | append_singleton l a ih => rw [initNavAll_append, initNavCtx_keys, ih]

theorem initNavAll_tbt (l : List NavContext) (w : MainWindow) :
    (initNavAll l w).tbt = w.tbt := by
  induction l using List.reverseRecOn with
  | nil => rfl
  | append_singleton l a ih => rw [initNavAll_append, initNavCtx_tbt, ih]

theorem initNavAll_length (l : List NavContext) (w : MainWindow) :
    (initNavAll l w).btGroup.length = w.btGroup.length + l.length := by
  induction l using List.reverseRecOn with
  | nil => rfl
  | append_singleton l a ih => rw [initNavAll_append, initNavCtx_length, ih]; simp; omega

theorem initNavAll_pages (l : List NavContext) (w : MainWindow) :
    (initNavAll l w).stackedWidget.pages = w.stackedWidget.pages ++ l.map (fun c => c.page) := by
  induction l using List.reverseRecOn with
  | nil => simp [initNavAll]
  | append_singleton l a ih => rw [initNavAll_append, initNavCtx_pages, ih]; simp

theorem navWired_uncheck (l : List QToolButton) (h : NavWired l) :
    NavWired (l.map (fun b => { b with checked := false })) := by
  intro k b hb
  rw [List.getElem?_map] at hb
  cases hl : l[k]? with
  | none => simp [hl] at hb
  | some b0 =>
    simp only [hl, Option.map_some', Option.some.injEq] at hb
    subst hb
    exact h k b0 hl

theorem navWired_append (g : List QToolButton) (x : QToolButton) (h : NavWired g)
    (hx : x.clicked = [NavSlot.showPage ((g.length : Int) + 1)] ∧ x.checkable = true) :
    NavWired (g ++ [x]) := by
  intro k b hb
  rcases Nat.lt_trichotomy k g.length with hlt | heq | hgt
  · rw [List.getElem?_append_left hlt] at hb
    exact h k b hb
  · subst heq
    rw [List.getElem?_append_right (Nat.le_refl _)] at hb
    simp only [Nat.sub_self, List.getElem?_cons_zero, Option.some.injEq] at hb
    subst hb
    exact hx
  · have hnone : (g ++ [x])[k]? = none := by
      apply List.getElem?_eq_none
      simp only [List.length_append, List.length_singleton]
      omega
    rw [hnone] at hb
    cases hb

theorem navWired_initNavCtx (ctx : NavContext) (w : MainWindow) (h : NavWired w.btGroup) :
    NavWired (initNavCtx ctx w).btGroup := by
  rw [initNavCtx_btGroup]
  by_cases hc : (w.settings.value w.m_settingsKey.pageIndex).toInt = (w.btGroup.length : Int)
  · rw [if_pos hc]
    exact navWired_append _ _ (navWired_uncheck _ h) (by simp [navButton])
  · rw [if_neg hc]
    exact navWired_append _ _ h (by simp [navButton])

theorem navWired_initNavAll (l : List NavContext) (w : MainWindow) (h : NavWired w.btGroup) :
    NavWired (initNavAll l w).btGroup := by
  induction l using List.reverseRecOn with
  | nil => exact h
  | append_singleton l a ih => rw [initNavAll_append]; exact navWired_initNavCtx a _ ih

theorem initNavCtx_checked (ctx : NavContext) (w : MainWindow) (p : Int)
    (hp : (w.settings.value w.m_settingsKey.pageIndex).toInt = p)
    (h : ∀ (k : Nat) (b : QToolButton), w.btGroup[k]? = some b → (b.checked = true ↔ p = k)) :
    ∀ (k : Nat) (b : QToolButton), (initNavCtx ctx w).btGroup[k]? = some b →
      (b.checked = true ↔ p = k) := by
  intro k b hb
  rw [initNavCtx_btGroup, hp] at hb
  by_cases hc : p = (w.btGroup.length : Int)
  · rw [if_pos hc] at hb
    rcases Nat.lt_trichotomy k w.btGroup.length with hlt | heq | hgt
    · rw [List.getElem?_append_left (by simpa using hlt), List.getElem?_map] at hb
      cases hl : w.btGroup[k]? with
      | none => simp [hl] at hb
      | some b0 =>
        simp only [hl, Option.map_some', Option.some.injEq] at hb
        subst hb
        simp only [Bool.false_eq_true, false_iff]
        omega
    · subst heq
      rw [List.getElem?_append_right (by simp)] at hb
      simp only [List.length_map, Nat.sub_self, List.getElem?_cons_zero, Option.some.injEq] at hb
      subst hb
      simp [navButton, hp, hc]
    · have hnone : (w.btGroup.map (fun b => { b with checked := false })
          ++ [navButton ctx w])[k]? = none := by
        apply List.getElem?_eq_none
        simp only [List.length_append, List.length_map, List.length_singleton]
        omega
      rw [hnone] at hb
      cases hb
  · rw [if_neg hc] at hb
    rcases Nat.lt_trichotomy k w.btGroup.length with hlt | heq | hgt
    · rw [List.getElem?_append_left hlt] at hb
      exact h k b hb
    · subst heq
      rw [List.getElem?_append_right (Nat.le_refl _)] at hb
      simp only [Nat.sub_self, List.getElem?_cons_zero, Option.some.injEq] at hb
      subst hb
      simp [navButton, hp, hc]
    · have hnone : (w.btGroup ++ [navButton ctx w])[k]? = none := by
        apply List.getElem?_eq_none
        simp only [List.length_append, List.length_singleton]
        omega
      rw [hnone] at hb
      cases hb

theorem initNavAll_checked (l : List NavContext) (w : MainWindow) (p : Int)
    (hp : (w.settings.value w.m_settingsKey.pageIndex).toInt = p) (hbg : w.btGroup = []) :
    ∀ (k : Nat) (b : QToolButton), (initNavAll l w).btGroup[k]? = some b →
      (b.checked = true ↔ p = k) := by
  induction l using List.reverseRecOn with
  | nil => intro k b hb; simp [initNavAll, hbg] at hb
  | append_singleton l a ih =>
    rw [initNavAll_append]
    exact initNavCtx_checked a _ p (by rw [initNavAll_settings, initNavAll_keys]; exact hp) ih

theorem initNavAll_stack (l : List NavContext) (w : MainWindow) (p : Int)
    (hp : (w.settings.value w.m_settingsKey.pageIndex).toInt = p) (hbg : w.btGroup = [])
    (hsw : w.stackedWidget = QStackedWidget.empty) :
    (initNavAll l w).stackedWidget.calls = (if 0 ≤ p ∧ p < l.length then [p] else []) ∧
    (initNavAll l w).stackedWidget.currentIndex =
      (if 0 ≤ p ∧ p < l.length then p else if l.length = 0 then -1 else 0) := by
  induction l using List.reverseRecOn with
  | nil =>
    simp only [initNavAll, List.foldl_nil, hsw, QStackedWidget.empty, List.length_nil,
      Nat.cast_zero, if_true]
    have : ¬ (0 ≤ p ∧ p < 0) := by omega
    simp [this]
  | append_singleton l a ih =>
    obtain ⟨ih1, ih2⟩ := ih
    have hlen : (initNavAll l w).btGroup.length = l.length := by
      rw [initNavAll_length, hbg]; simp
    have hpages : (initNavAll l w).stackedWidget.pages.length = l.length := by
      rw [initNavAll_pages, hsw]; simp [QStackedWidget.empty]
    have hp2 : ((initNavAll l w).settings.value (initNavAll l w).m_settingsKey.pageIndex).toInt
        = p := by rw [initNavAll_settings, initNavAll_keys]; exact hp
    have hempty : (initNavAll l w).stackedWidget.pages = [] ↔ l.length = 0 := by
      rw [← hpages]; exact List.length_eq_zero.symm
    rw [initNavAll_append, initNavCtx_stackedWidget, hp2, hlen]
    simp only [List.length_append, List.length_singleton, Nat.cast_add, Nat.cast_one]
    by_cases hc : p = (l.length : Int)
    · rw [if_pos hc]
      have h1 : 0 ≤ p ∧ p < (l.length : Int) + 1 := by omega
      have h2 : ¬ (0 ≤ p ∧ p < (l.length : Int)) := by omega
      have h3 : (0 : Int) ≤ (l.length : Int) ∧ (l.length : Int) < (l.length : Int) + 1 := by omega
      simp only [QStackedWidget.setCurrentIndex, QStackedWidget.addWidget, ih1, if_pos h1,
        if_neg h2, List.length_append, List.length_singleton, hpages, Nat.cast_add, Nat.cast_one,
        if_pos h3, List.nil_append]
      exact ⟨by rw [hc], hc.symm⟩
    · rw [if_neg hc]
      simp only [QStackedWidget.addWidget, ih1, ih2]
      by_cases hin : 0 ≤ p ∧ p < (l.length : Int)
      · have h1 : 0 ≤ p ∧ p < (l.length : Int) + 1 := by omega
        have h0 : ¬ l.length = 0 := by omega
        have h0' : ¬ (initNavAll l w).stackedWidget.pages = [] := fun e => h0 (hempty.mp e)
        simp [hin, h1, h0']
      · have h1 : ¬ (0 ≤ p ∧ p < (l.length : Int) + 1) := by omega
        simp only [if_neg hin, if_neg h1]
        refine ⟨trivial, ?_⟩
        by_cases h0 : l.length = 0
        · simp [hempty.mpr h0]
        · have h0' : ¬ (initNavAll l w).stackedWidget.pages = [] := fun e => h0 (hempty.mp e)
          simp [h0, h0']

theorem initNavCtx_style (ctx : NavContext) (w : MainWindow) (flag : Bool)
    (hflag : (w.settings.value w.m_settingsKey.isTextBesideIcon).toBool = flag)
    (h : ∀ b ∈ w.btGroup, b.toolButtonStyle = styleOf flag) :
    ∀ b ∈ (initNavCtx ctx w).btGroup, b.toolButtonStyle = styleOf flag := by
  intro b hb
  rw [initNavCtx_btGroup, List.mem_append] at hb
  rcases hb with hb | hb
  · split at hb
    · obtain ⟨b0, hb0, rfl⟩ := List.mem_map.mp hb
      exact h b0 hb0
    · exact h b hb
  · rw [List.mem_singleton] at hb
    subst hb
    simp [navButton, hflag]

theorem initNavAll_style (l : List NavContext) (w : MainWindow) (flag : Bool)
    (hflag : (w.settings.value w.m_settingsKey.isTextBesideIcon).toBool = flag)
    (h : ∀ b ∈ w.btGroup, b.toolButtonStyle = styleOf flag) :
    ∀ b ∈ (initNavAll l w).btGroup, b.toolButtonStyle = styleOf flag := by
  induction l using List.reverseRecOn with
  | nil => exact h
  | append_singleton l a ih =>
    rw [initNavAll_append]
    exact initNavCtx_style a _ flag (by rw [initNavAll_settings, initNavAll_keys]; exact hflag) ih

theorem initNav_settings (cfg : BuildConfig) (w : MainWindow) :
    (initNav cfg w).settings = w.settings ∧ (initNav cfg w).m_settingsKey = w.m_settingsKey := by
  obtain ⟨g1, g2, tbs, modbus, canbus⟩ := cfg
  cases modbus <;> cases canbus <;>
    simp [initNav, initNavCtx_settings, initNavCtx_keys, initNavAll_settings, initNavAll_keys]

theorem initNav_tbt (cfg : BuildConfig) (w : MainWindow) :
    (initNav cfg w).tbt = some
      { icon := ":/Resources/Icons/IconListWithIcon.svg"
        text := " Hide Text"
        toolTip := "Click to show(hide) nav text"
        autoRaise := true
        checkable := true
        checked := (w.settings.value w.m_settingsKey.isTextBesideIcon).toBool
        toolButtonStyle := styleOf (w.settings.value w.m_settingsKey.isTextBesideIcon).toBool
        clicked := [NavSlot.toggleText w.m_settingsKey.isTextBesideIcon] } := by
  obtain ⟨g1, g2, tbs, modbus, canbus⟩ := cfg
  cases modbus <;> cases canbus <;>
    simp [initNav, initNavCtx_settings, initNavCtx_keys, initNavAll_settings, initNavAll_keys]

theorem initNav_style (cfg : BuildConfig) (w : MainWindow) (flag : Bool)
    (hflag : (w.settings.value w.m_settingsKey.isTextBesideIcon).toBool = flag)
    (hbg : w.btGroup = []) :
    ∀ b ∈ (initNav cfg w).btGroup, b.toolButtonStyle = styleOf flag := by
  obtain ⟨g1, g2, tbs, modbus, canbus⟩ := cfg
  have h1 : ∀ b ∈ (initNavAll tbs { w with toolBar := [] }).btGroup,
      b.toolButtonStyle = styleOf flag :=
    initNavAll_style tbs _ flag hflag (by intro b hb; simp [hbg] at hb)
  have hf1 : ∀ tb : List ToolBarItem,
      (({ initNavAll tbs { w with toolBar := [] } with toolBar := tb } : MainWindow).settings.value
        ({ initNavAll tbs { w with toolBar := [] } with toolBar := tb } :
          MainWindow).m_settingsKey.isTextBesideIcon).toBool = flag := by
    intro tb
    simp [initNavAll_settings, initNavAll_keys, hflag]
  cases modbus with
  | none =>
    cases canbus with
    | none => exact h1
    | some c => exact initNavCtx_style _ _ flag (hf1 _) h1
  | some m =>
    have h2 := initNavCtx_style
      { icon := ":/Resources/Icons/IconModbus.svg", name := "Modbus Studio", page := m }
      { initNavAll tbs { w with toolBar := [] } with
        toolBar := (initNavAll tbs { w with toolBar := [] }).toolBar ++ [ToolBarItem.separator] }
      flag (hf1 _) h1
    cases canbus with
    | none => exact h2
    | some c =>
      exact initNavCtx_style _ _ flag
        (by rw [initNavCtx_settings, initNavCtx_keys]; exact hf1 _) h2

theorem setCheckedAt_wiring (k : Nat) (l : List QToolButton) :
    (setCheckedAt k l).map QToolButton.wiring = l.map QToolButton.wiring := by
  induction l generalizing k with
  | nil => cases k <;> rfl
  | cons b bs ih =>
    cases k with
    | zero => simp [setCheckedAt, QToolButton.wiring, Function.comp_def]
    | succ k => simp [setCheckedAt, ih, QToolButton.wiring]

theorem runNavSlot_shape (w : MainWindow) (sl : NavSlot) :
    (runNavSlot w sl).m_settingsKey = w.m_settingsKey ∧
    (runNavSlot w sl).stackedWidget.pages = w.stackedWidget.pages ∧
    (runNavSlot w sl).btGroup.map QToolButton.wiring = w.btGroup.map QToolButton.wiring ∧
    (runNavSlot w sl).tbt.map QToolButton.wiring = w.tbt.map QToolButton.wiring := by
  cases sl with
  | showPage pc => simp [runNavSlot, QStackedWidget.setCurrentIndex]
  | toggleText key =>
    cases ht : w.tbt with
    | none => simp [runNavSlot, ht]
    | some t => simp [runNavSlot, ht, QToolButton.wiring, Function.comp_def]

theorem runNavSlots_shape (sls : List NavSlot) (w : MainWindow) :
    (sls.foldl runNavSlot w).m_settingsKey = w.m_settingsKey ∧
    (sls.foldl runNavSlot w).stackedWidget.pages = w.stackedWidget.pages ∧
    (sls.foldl runNavSlot w).btGroup.map QToolButton.wiring = w.btGroup.map QToolButton.wiring ∧
    (sls.foldl runNavSlot w).tbt.map QToolButton.wiring = w.tbt.map QToolButton.wiring := by
  induction sls generalizing w with
  | nil => exact ⟨rfl, rfl, rfl, rfl⟩
  | cons sl sls ih =>
    obtain ⟨h1, h2, h3, h4⟩ := ih (runNavSlot w sl)
    obtain ⟨g1, g2, g3, g4⟩ := runNavSlot_shape w sl
    exact ⟨h1.trans g1, h2.trans g2, h3.trans g3, h4.trans g4⟩

theorem userClick_shape (w : MainWindow) (c : NavClick) :
    (userClick w c).m_settingsKey = w.m_settingsKey ∧
    (userClick w c).stackedWidget.pages = w.stackedWidget.pages ∧
    (userClick w c).btGroup.map QToolButton.wiring = w.btGroup.map QToolButton.wiring ∧
    (userClick w c).tbt.map QToolButton.wiring = w.tbt.map QToolButton.wiring := by
  cases c with
  | button k =>
    simp only [userClick, clickNav]
    cases hb : w.btGroup.get? k with
    | none => exact ⟨rfl, rfl, rfl, rfl⟩
    | some bt =>
      simp only []
      by_cases hc : bt.checkable = true
      · rw [if_pos hc]
        obtain ⟨g1, g2, g3, g4⟩ := runNavSlots_shape bt.clicked
          { w with btGroup := setCheckedAt k w.btGroup }
        exact ⟨g1, g2, g3.trans (setCheckedAt_wiring k w.btGroup), g4⟩
      · rw [if_neg hc]
        exact runNavSlots_shape bt.clicked w
  | hideText =>
    simp only [userClick, clickHideText]
    cases ht : w.tbt with
    | none => exact ⟨rfl, rfl, rfl, by simp [ht]⟩
    | some t =>
      simp only []
      obtain ⟨g1, g2, g3, g4⟩ := runNavSlots_shape
        (if t.checkable = true then { t with checked := !t.checked } else t).clicked
        { w with tbt := some (if t.checkable = true then { t with checked := !t.checked } else t) }
      refine ⟨g1, g2, g3, g4.trans ?_⟩
      by_cases hc : t.checkable = true <;> simp [hc, QToolButton.wiring]

theorem userClicks_shape (cs : List NavClick) (w : MainWindow) :
    (userClicks cs w).m_settingsKey = w.m_settingsKey ∧
    (userClicks cs w).stackedWidget.pages = w.stackedWidget.pages ∧
    (userClicks cs w).btGroup.map QToolButton.wiring = w.btGroup.map QToolButton.wiring ∧
    (userClicks cs w).tbt.map QToolButton.wiring = w.tbt.map QToolButton.wiring := by
  induction cs generalizing w with
  | nil => exact ⟨rfl, rfl, rfl, rfl⟩
  | cons c cs ih =>
    obtain ⟨h1, h2, h3, h4⟩ := ih (userClick w c)
    obtain ⟨g1, g2, g3, g4⟩ := userClick_shape w c
    exact ⟨h1.trans g1, h2.trans g2, h3.trans g3, h4.trans g4⟩

theorem navWired_of_wiring (l1 l2 : List QToolButton)
    (h : l2.map QToolButton.wiring = l1.map QToolButton.wiring) (hw : NavWired l1) :
    NavWired l2 := by
  intro k b hb
  have h2 : (l2.map QToolButton.wiring)[k]? = some b.wiring := by
    rw [List.getElem?_map, hb]; rfl
  rw [h, List.getElem?_map] at h2
  cases hl : l1[k]? with
  | none => simp [hl] at h2
  | some b1 =>
    simp only [hl, Option.map_some', Option.some.injEq, QToolButton.wiring, Prod.mk.injEq] at h2
    obtain ⟨hc1, hc2⟩ := hw k b1 hl
    exact ⟨h2.1 ▸ hc1, h2.2 ▸ hc2⟩

theorem clickNav_wired (s : MainWindow) (k : Nat) (hw : NavWired s.btGroup)
    (hk : k < s.btGroup.length) (hlen : s.btGroup.length = s.stackedWidget.pages.length) :
    (clickNav k s).stackedWidget.currentWidget = s.stackedWidget.pages[k]? ∧
    (clickNav k s).settings.value s.m_settingsKey.pageIndex = QVariant.ofInt (k : Int) := by
  obtain ⟨b, hb⟩ : ∃ b, s.btGroup[k]? = some b := ⟨_, List.getElem?_eq_getElem hk⟩
  obtain ⟨hclicked, hcheckable⟩ := hw k b hb
  have hclick : clickNav k s =
      runNavSlot { s with btGroup := setCheckedAt k s.btGroup }
        (NavSlot.showPage ((k : Int) + 1)) := by
    simp [clickNav, List.get?_eq_getElem?, hb, hclicked, hcheckable]
  rw [hclick]
  constructor
  · simp only [runNavSlot, QStackedWidget.currentWidget, QStackedWidget.setCurrentIndex,
      add_sub_cancel_right]
    have h1 : (0 : Int) ≤ (k : Int) ∧ (k : Int) < (s.stackedWidget.pages.length : Int) := by omega
    simp [h1, List.get?_eq_getElem?]
  · simp [runNavSlot, xToolsSettings.value, xToolsSettings.setValue]

theorem clickHideText_wired (s : MainWindow) (tbt : QToolButton)
    (hs : s.tbt = some tbt) (hcheckable : tbt.checkable = true)
    (hclicked : tbt.clicked = [NavSlot.toggleText s.m_settingsKey.isTextBesideIcon]) :
    ∃ t, (clickHideText s).tbt = some t ∧ t.checked = (!tbt.checked) ∧
      t.toolButtonStyle = styleOf t.checked ∧
      (∀ b ∈ (clickHideText s).btGroup, b.toolButtonStyle = styleOf t.checked) ∧
      (clickHideText s).settings.value s.m_settingsKey.isTextBesideIcon
        = QVariant.ofBool t.checked ∧
      (clickHideText s).btGroup.length = s.btGroup.length := by
  refine ⟨{ tbt with checked := !tbt.checked, toolButtonStyle := styleOf (!tbt.checked) },
    ?_, rfl, rfl, ?_, ?_, ?_⟩
  · simp [clickHideText, hs, hcheckable, hclicked, runNavSlot]
  · intro b hb
    simp only [clickHideText, hs, hcheckable, hclicked, runNavSlot, if_true, List.foldl_cons,
      List.foldl_nil] at hb
    obtain ⟨b0, _, rfl⟩ := List.mem_map.mp hb
    rfl
  · simp [clickHideText, hs, hcheckable, hclicked, runNavSlot, xToolsSettings.value,
      xToolsSettings.setValue]
  · simp [clickHideText, hs, hcheckable, hclicked, runNavSlot]

/-- C3: start from an empty button group and an empty stack and make any
run of `initNav(ctx)` calls.  Then, after any run of user clicks in the
navigation bar, a click on the button of the `k`-th call makes the page of
that call the current page and stores `k` under the pageIndex key.  The slot
of that button holds `pageCount = k + 1`, and after every call the group has
as many buttons as the stack has pages. -/
theorem C3_nav_click_shows_own_page (ctxs : List NavContext) (w : MainWindow) (k : Nat)
    (clicks : List NavClick)
    (hbg : w.btGroup = []) (hsw : w.stackedWidget.pages = []) (hk : k < ctxs.length) :
    (clickNav k (userClicks clicks (initNavAll ctxs w))).stackedWidget.currentWidget
      = some (ctxs.get ⟨k, hk⟩).page ∧
    (clickNav k (userClicks clicks (initNavAll ctxs w))).settings.value w.m_settingsKey.pageIndex
      = QVariant.ofInt (k : Int) ∧
    (∃ b, (initNavAll ctxs w).btGroup[k]? = some b ∧
      b.clicked = [NavSlot.showPage ((k : Int) + 1)]) ∧
    (∀ pre, pre <+: ctxs →
      (initNavAll pre w).btGroup.length = (initNavAll pre w).stackedWidget.pages.length) := by
  have hwired : NavWired (initNavAll ctxs w).btGroup :=
    navWired_initNavAll ctxs w (by rw [hbg]; intro k b hb; simp at hb)
  have hlen : (initNavAll ctxs w).btGroup.length = ctxs.length := by
    rw [initNavAll_length, hbg]; simp
  have hpages : (initNavAll ctxs w).stackedWidget.pages = ctxs.map (fun c => c.page) := by
    rw [initNavAll_pages, hsw]; simp
  obtain ⟨s1, s2, s3, _⟩ := userClicks_shape clicks (initNavAll ctxs w)
  have hwired2 := navWired_of_wiring _ _ s3 hwired
  have hlen2 : (userClicks clicks (initNavAll ctxs w)).btGroup.length = ctxs.length := by
    have := congrArg List.length s3
    simpa [hlen] using this
  have hmain := clickNav_wired (userClicks clicks (initNavAll ctxs w)) k hwired2
    (by rw [hlen2]; exact hk) (by rw [hlen2, s2, hpages]; simp)
  rw [s1, s2, hpages, initNavAll_keys] at hmain
  refine ⟨?_, hmain.2, ?_, ?_⟩
  · rw [hmain.1]; simp [List.getElem?_eq_getElem hk]
  · obtain ⟨b, hb⟩ : ∃ b, (initNavAll ctxs w).btGroup[k]? = some b :=
      ⟨_, List.getElem?_eq_getElem (by rw [hlen]; exact hk)⟩
    exact ⟨b, hb, (hwired k b hb).1⟩
  · intro pre _
    rw [initNavAll_length, initNavAll_pages, hbg, hsw]; simp

/-- C3 at a concrete input: two pages, a click on the first button and on
"Hide Text", then a click on the second button shows the second page. -/
theorem C3_nav_click_shows_own_page_witness :
    (clickNav 1 (userClicks [NavClick.button 0, NavClick.hideText]
      (initNavAll [⟨"a", "A", 10⟩, ⟨"b", "B", 11⟩]
        (MainWindow.base exampleKeys xToolsSettings.blank [])))).stackedWidget.currentWidget
      = some 11 :=
  (C3_nav_click_shows_own_page [⟨"a", "A", 10⟩, ⟨"b", "B", 11⟩]
    (MainWindow.base exampleKeys xToolsSettings.blank []) 1
    [NavClick.button 0, NavClick.hideText] rfl rfl (by decide)).1

/-- C4: start-up restores the last page.  From an empty group and a new
stack, with `p` the stored pageIndex read as an integer (`0` when the key is
absent) and one `initNav(ctx)` call per page: the button of page `k` is
checked if and only if `p = k`, and `setCurrentIndex(k)` is called if and
only if `p = k`.  For `0 ≤ p < n` page `p` is the current page and
`setCurrentIndex(p)` is the only such call; for `p < 0` or `p ≥ n` no button
is checked and no `setCurrentIndex` call is made. -/
theorem C4_startup_restores_page (ctxs : List NavContext) (w : MainWindow) (p : Int)
    (hbg : w.btGroup = []) (hsw : w.stackedWidget = QStackedWidget.empty)
    (hp : (w.settings.value w.m_settingsKey.pageIndex).toInt = p) :
    (w.settings.store w.m_settingsKey.pageIndex = none → p = 0) ∧
    (initNavAll ctxs w).btGroup.length = ctxs.length ∧
    (initNavAll ctxs w).stackedWidget.pages = ctxs.map (fun c => c.page) ∧
    (∀ (k : Nat) (b : QToolButton), (initNavAll ctxs w).btGroup[k]? = some b →
      (b.checked = true ↔ p = k)) ∧
    (∀ k : Nat, k < ctxs.length →
      ((k : Int) ∈ (initNavAll ctxs w).stackedWidget.calls ↔ p = k)) ∧
    (0 ≤ p → p < ctxs.length →
      (initNavAll ctxs w).stackedWidget.currentIndex = p ∧
      (initNavAll ctxs w).stackedWidget.currentWidget
        = (ctxs.map (fun c => c.page))[p.toNat]? ∧
      (initNavAll ctxs w).stackedWidget.calls = [p]) ∧
    (p < 0 ∨ (ctxs.length : Int) ≤ p →
      (∀ b ∈ (initNavAll ctxs w).btGroup, b.checked = false) ∧
      (initNavAll ctxs w).stackedWidget.calls = []) := by
  have hlen : (initNavAll ctxs w).btGroup.length = ctxs.length := by
    rw [initNavAll_length, hbg]; simp
  have hchk := initNavAll_checked ctxs w p hp hbg
  obtain ⟨hcalls, hcur⟩ := initNavAll_stack ctxs w p hp hbg hsw
  refine ⟨fun hnone => ?_, hlen, ?_, hchk, ?_, ?_, ?_⟩
  · rw [← hp]; simp [xToolsSettings.value, hnone, QVariant.invalid]
  · rw [initNavAll_pages, hsw]; simp [QStackedWidget.empty]
  · intro k hk
    rw [hcalls]
    by_cases hin : 0 ≤ p ∧ p < (ctxs.length : Int)
    · simp only [if_pos hin, List.mem_singleton]
      exact ⟨fun h => h.symm, fun h => h.symm⟩
    · simp only [if_neg hin, List.not_mem_nil, false_iff]
      omega
  · intro h0 h1
    have hpg : (initNavAll ctxs w).stackedWidget.pages = ctxs.map (fun c => c.page) := by
      rw [initNavAll_pages, hsw]; simp [QStackedWidget.empty]
    have hci : (initNavAll ctxs w).stackedWidget.currentIndex = p := by
      rw [hcur]; simp [h0, h1]
    refine ⟨hci, ?_, by rw [hcalls]; simp [h0, h1]⟩
    simp [QStackedWidget.currentWidget, hci, hpg, h0, List.get?_eq_getElem?]
  · intro hout
    have hin : ¬ (0 ≤ p ∧ p < (ctxs.length : Int)) := by omega
    refine ⟨?_, by rw [hcalls, if_neg hin]⟩
    intro b hb
    obtain ⟨k, hklt, hkb⟩ := List.getElem_of_mem hb
    have hsome : (initNavAll ctxs w).btGroup[k]? = some b := by
      rw [List.getElem?_eq_getElem hklt, hkb]
    have hiff := hchk k b hsome
    cases hbc : b.checked with
    | false => rfl
    | true =>
      have : p = k := hiff.mp hbc
      rw [hlen] at hklt
      omega

/-- C4 at a concrete input: two pages and the stored index 1. -/
theorem C4_startup_restores_page_witness :
    (initNavAll [⟨"a", "A", 10⟩, ⟨"b", "B", 11⟩]
      (MainWindow.base exampleKeys
        (xToolsSettings.blank.setValue "pageIndex" (QVariant.ofInt 1)) [])).stackedWidget.currentIndex
      = 1 ∧
    (initNavAll [⟨"a", "A", 10⟩, ⟨"b", "B", 11⟩]
      (MainWindow.base exampleKeys
        (xToolsSettings.blank.setValue "pageIndex" (QVariant.ofInt 1)) [])).stackedWidget.calls
      = [1] :=
  ⟨((C4_startup_restores_page [⟨"a", "A", 10⟩, ⟨"b", "B", 11⟩]
      (MainWindow.base exampleKeys
        (xToolsSettings.blank.setValue "pageIndex" (QVariant.ofInt 1)) []) 1 rfl rfl
      (by decide)).2.2.2.2.2.1 (by decide) (by decide)).1,
   ((C4_startup_restores_page [⟨"a", "A", 10⟩, ⟨"b", "B", 11⟩]
      (MainWindow.base exampleKeys
        (xToolsSettings.blank.setValue "pageIndex" (QVariant.ofInt 1)) []) 1 rfl rfl
      (by decide)).2.2.2.2.2.1 (by decide) (by decide)).2.2⟩

theorem hideText_click_and_construction (cfg : BuildConfig) (w : MainWindow) (clicks : List NavClick)
    (hbg : w.btGroup = []) :
    (∃ t0 t, (userClicks clicks (initNav cfg w)).tbt = some t0 ∧
      (clickHideText (userClicks clicks (initNav cfg w))).tbt = some t ∧
      t.checked = (!t0.checked) ∧
      t.toolButtonStyle = styleOf t.checked ∧
      (∀ b ∈ (clickHideText (userClicks clicks (initNav cfg w))).btGroup,
        b.toolButtonStyle = styleOf t.checked) ∧
      (clickHideText (userClicks clicks (initNav cfg w))).settings.value
          w.m_settingsKey.isTextBesideIcon = QVariant.ofBool t.checked ∧
      (clickHideText (userClicks clicks (initNav cfg w))).btGroup.length
        = (initNav cfg w).btGroup.length) ∧
    (∃ t, (initNav cfg w).tbt = some t ∧
      t.checked = (w.settings.value w.m_settingsKey.isTextBesideIcon).toBool ∧
      t.toolButtonStyle = styleOf (w.settings.value w.m_settingsKey.isTextBesideIcon).toBool) ∧
    (∀ b ∈ (initNav cfg w).btGroup,
      b.toolButtonStyle = styleOf (w.settings.value w.m_settingsKey.isTextBesideIcon).toBool) ∧
    (w.settings.store w.m_settingsKey.isTextBesideIcon = none →
      styleOf (w.settings.value w.m_settingsKey.isTextBesideIcon).toBool
        = ToolButtonStyle.ToolButtonIconOnly) := by
  refine ⟨?_, ⟨_, initNav_tbt cfg w, rfl, rfl⟩, initNav_style cfg w _ rfl hbg, fun hnone => ?_⟩
  · obtain ⟨s1, _, s3, s4⟩ := userClicks_shape clicks (initNav cfg w)
    rw [(initNav_settings cfg w).2] at s1
    rw [initNav_tbt cfg w] at s4
    cases ht : (userClicks clicks (initNav cfg w)).tbt with
    | none => simp [ht] at s4
    | some t0 =>
      simp only [ht, Option.map_some', Option.some.injEq, QToolButton.wiring,
        Prod.mk.injEq] at s4
      obtain ⟨t, h1, h2, h3, h4, h5, h6⟩ := clickHideText_wired
        (userClicks clicks (initNav cfg w)) t0 ht s4.2 (by rw [s4.1, s1])
      rw [s1] at h5
      have hl := congrArg List.length s3
      simp only [List.length_map] at hl
      exact ⟨t0, t, rfl, h1, h2, h3, h4, h5, h6.trans hl⟩
  · simp [xToolsSettings.value, hnone, QVariant.invalid, styleOf]

theorem initNav_length (cfg : BuildConfig) (w : MainWindow) (hbg : w.btGroup = []) :
    (initNav cfg w).btGroup.length =
      cfg.toolBoxes.length + cfg.modbusStudio.toList.length + cfg.canBusStudio.toList.length := by
  obtain ⟨g1, g2, tbs, modbus, canbus⟩ := cfg
  cases modbus <;> cases canbus <;>
    simp [initNav, initNavCtx_length, initNavAll_length, hbg]

/-- C7: the icon/text mode is kept consistent and persisted.  Build the
navigation bar with `initNav()` on an empty group and let the user click
anything in it, any number of times.  A click on "Hide Text" then flips that
button; it and every button of the group get the style TextBesideIcon if the
button is now checked and IconOnly otherwise, and its checked state is stored
under the isTextBesideIcon key.  At construction the checked state of
"Hide Text" is the stored value read as a boolean, and its style and the
style of every nav button are TextBesideIcon if that value is true and
IconOnly otherwise; an absent value reads as false.  The group holds one
button per tool box and per compiled-in module. -/
theorem C7_text_beside_icon (cfg : BuildConfig) (w : MainWindow) (clicks : List NavClick)
    (hbg : w.btGroup = []) :
    (∃ t0 t, (userClicks clicks (initNav cfg w)).tbt = some t0 ∧
      (clickHideText (userClicks clicks (initNav cfg w))).tbt = some t ∧
      t.checked = (!t0.checked) ∧
      t.toolButtonStyle = (if t.checked = true then ToolButtonStyle.ToolButtonTextBesideIcon
          else ToolButtonStyle.ToolButtonIconOnly) ∧
      (∀ b ∈ (clickHideText (userClicks clicks (initNav cfg w))).btGroup,
        b.toolButtonStyle = (if t.checked = true then ToolButtonStyle.ToolButtonTextBesideIcon
          else ToolButtonStyle.ToolButtonIconOnly)) ∧
      (clickHideText (userClicks clicks (initNav cfg w))).settings.value
          w.m_settingsKey.isTextBesideIcon = QVariant.ofBool t.checked ∧
      (clickHideText (userClicks clicks (initNav cfg w))).btGroup.length
        = (initNav cfg w).btGroup.length) ∧
    (∃ t, (initNav cfg w).tbt = some t ∧
      t.checked = (w.settings.value w.m_settingsKey.isTextBesideIcon).toBool ∧
      t.toolButtonStyle = (if (w.settings.value w.m_settingsKey.isTextBesideIcon).toBool = true
          then ToolButtonStyle.ToolButtonTextBesideIcon else ToolButtonStyle.ToolButtonIconOnly)) ∧
    (∀ b ∈ (initNav cfg w).btGroup,
      b.toolButtonStyle = (if (w.settings.value w.m_settingsKey.isTextBesideIcon).toBool = true
          then ToolButtonStyle.ToolButtonTextBesideIcon else ToolButtonStyle.ToolButtonIconOnly)) ∧
    (w.settings.store w.m_settingsKey.isTextBesideIcon = none →
      (w.settings.value w.m_settingsKey.isTextBesideIcon).toBool = false ∧
      (∃ t, (initNav cfg w).tbt = some t ∧ t.checked = false ∧
        t.toolButtonStyle = ToolButtonStyle.ToolButtonIconOnly) ∧
      (∀ b ∈ (initNav cfg w).btGroup,
        b.toolButtonStyle = ToolButtonStyle.ToolButtonIconOnly)) ∧
    (initNav cfg w).btGroup.length =
      cfg.toolBoxes.length + cfg.modbusStudio.toList.length + cfg.canBusStudio.toList.length := by
  obtain ⟨h1, h2, h3, _⟩ := hideText_click_and_construction cfg w clicks hbg
  refine ⟨h1, h2, h3, fun hnone => ?_, initNav_length cfg w hbg⟩
  have hf : (w.settings.value w.m_settingsKey.isTextBesideIcon).toBool = false := by
    simp [xToolsSettings.value, hnone, QVariant.invalid]
  refine ⟨hf, ?_, ?_⟩
  · obtain ⟨t, ht, hc, hs⟩ := h2
    exact ⟨t, ht, hc.trans hf, by rw [hs, hf]; rfl⟩
  · intro b hb
    rw [h3 b hb, hf]; rfl

/-- C7 at a concrete input: one tool page, nothing stored.  The page button
starts icon-only; after a click on it and a click on "Hide Text", that
button is checked, it and the page button show text beside the icon, and
`true` is stored. -/
theorem C7_text_beside_icon_witness :
    (∀ b ∈ (initNav ⟨"", "", [⟨"a", "A", 10⟩], none, none⟩
        (MainWindow.base exampleKeys xToolsSettings.blank [])).btGroup,
      b.toolButtonStyle = ToolButtonStyle.ToolButtonIconOnly) ∧
    (initNav ⟨"", "", [⟨"a", "A", 10⟩], none, none⟩
        (MainWindow.base exampleKeys xToolsSettings.blank [])).btGroup.length = 1 ∧
    ((clickHideText (userClicks [NavClick.button 0]
        (initNav ⟨"", "", [⟨"a", "A", 10⟩], none, none⟩
          (MainWindow.base exampleKeys xToolsSettings.blank [])))).tbt.map
        (fun t => (t.checked, t.toolButtonStyle)))
      = some (true, ToolButtonStyle.ToolButtonTextBesideIcon) ∧
    ((clickHideText (userClicks [NavClick.button 0]
        (initNav ⟨"", "", [⟨"a", "A", 10⟩], none, none⟩
          (MainWindow.base exampleKeys xToolsSettings.blank [])))).btGroup.map
        (fun b => b.toolButtonStyle))
      = [ToolButtonStyle.ToolButtonTextBesideIcon] ∧
    (clickHideText (userClicks [NavClick.button 0]
        (initNav ⟨"", "", [⟨"a", "A", 10⟩], none, none⟩
          (MainWindow.base exampleKeys xToolsSettings.blank [])))).settings.value
        "isTextBesideIcon" = QVariant.ofBool true :=
  ⟨((C7_text_beside_icon ⟨"", "", [⟨"a", "A", 10⟩], none, none⟩
      (MainWindow.base exampleKeys xToolsSettings.blank []) [NavClick.button 0] rfl).2.2.2.1
        rfl).2.2,
   (C7_text_beside_icon ⟨"", "", [⟨"a", "A", 10⟩], none, none⟩
      (MainWindow.base exampleKeys xToolsSettings.blank []) [NavClick.button 0] rfl).2.2.2.2,
   by decide, by decide, by decide⟩

/-! ## Theorems: column keys, null tool, repeated set-up, Links menu -/

/-- C11: `ItemContextKeys` has exactly seven members; with their member
initialisers they are "Enable", "ClientIp", "ClientPort",
"SpecifiedClientIpAndPort", "ServerIp", "ServerPort" and "MessageType", in
that order, and no two of the seven strings are equal. -/
theorem C11_item_context_keys :
    ({} : ItemContextKeys).all =
      ["Enable", "ClientIp", "ClientPort", "SpecifiedClientIpAndPort", "ServerIp", "ServerPort",
        "MessageType"] ∧
    ({} : ItemContextKeys).all.length = 7 ∧
    ({} : ItemContextKeys).all.Nodup ∧
    ({} : ItemContextKeys).enable = "Enable" ∧
    ({} : ItemContextKeys).clientIp = "ClientIp" ∧
    ({} : ItemContextKeys).clientPort = "ClientPort" ∧
    ({} : ItemContextKeys).specifiedClientIpPort = "SpecifiedClientIpAndPort" ∧
    ({} : ItemContextKeys).serverIp = "ServerIp" ∧
    ({} : ItemContextKeys).serverPort = "ServerPort" ∧
    ({} : ItemContextKeys).messageType = "MessageType" := by
  decide

/-- C12: `setupStorer(nullptr)` is a no-op.  For every state the world after
is the world before: `mTool`, every flag of every tool, the connections and
the check boxes are unchanged. -/
theorem C12_setupStorer_null_is_noop (w : StorerWorld) :
    setupStorer none w = w ∧
    (setupStorer none w).ui.mTool = w.ui.mTool ∧
    (∀ a, (setupStorer none w).tools a = w.tools a) ∧
    (setupStorer none w).ui.connections = w.ui.connections ∧
    (∀ cb, (setupStorer none w).ui.isChecked cb = w.ui.isChecked cb) :=
  ⟨rfl, rfl, fun _ => rfl, rfl, fun _ => rfl⟩

theorem disconnect_keeps_this (sender : CheckBox) (old : Nat) (cs : List Connection)
    (h : ∀ c ∈ cs, c.receiver = Receiver.this) : disconnect sender (.tool old) cs = cs := by
  unfold disconnect
  apply List.filter_eq_self.mpr
  intro c hc
  simp [h c hc]

theorem setupStorer_connections (t : Nat) (w : StorerWorld)
    (h : ∀ c ∈ w.ui.connections, c.receiver = Receiver.this) :
    (setupStorer (some t) w).ui.connections = w.ui.connections ++ storerHandlers := by
  unfold setupStorer
  cases hm : w.ui.mTool with
  | none => rfl
  | some old =>
    simp only [disconnect_keeps_this _ old _ h]
    rfl

theorem setupStorerAll_append (l : List Nat) (t : Nat) (w : StorerWorld) :
    setupStorerAll (l ++ [t]) w = setupStorer (some t) (setupStorerAll l w) := by
  simp [setupStorerAll, List.foldl_append]

theorem handlerCopies_receiver (n : Nat) :
    ∀ c ∈ handlerCopies n, c.receiver = Receiver.this := by
  induction n with
  | zero => intro c hc; simp [handlerCopies] at hc
  | succ n ih =>
    intro c hc
    simp only [handlerCopies, List.mem_append] at hc
    rcases hc with hc | hc
    · exact ih c hc
    · simp only [storerHandlers, List.mem_cons, List.mem_singleton, List.not_mem_nil,
        or_false] at hc
      rcases hc with rfl | rfl | rfl | rfl <;> rfl

theorem setupStorerAll_connections (l : List Nat) (w : StorerWorld)
    (h : ∀ c ∈ w.ui.connections, c.receiver = Receiver.this) :
    (setupStorerAll l w).ui.connections = w.ui.connections ++ handlerCopies l.length := by
  induction l using List.reverseRecOn with
  | nil => simp [setupStorerAll, handlerCopies]
  | append_singleton l t ih =>
    have hall : ∀ c ∈ (setupStorerAll l w).ui.connections, c.receiver = Receiver.this := by
      intro c hc
      rw [ih, List.mem_append] at hc
      rcases hc with hc | hc
      · exact h c hc
      · exact handlerCopies_receiver _ c hc
    rw [setupStorerAll_append, setupStorer_connections t _ hall, ih]
    simp [handlerCopies, List.append_assoc]

theorem slotsOf_append (cb : CheckBox) (l1 l2 : List Connection) :
    slotsOf cb (l1 ++ l2) = slotsOf cb l1 ++ slotsOf cb l2 := by
  simp [slotsOf]

theorem slotsOf_handlerCopies (cb : CheckBox) (n : Nat) :
    slotsOf cb (handlerCopies n) = (List.replicate n (slotsOf cb storerHandlers)).flatten := by
  induction n with
  | zero => rfl
  | succ n ih =>
    rw [handlerCopies, slotsOf_append, ih, List.replicate_succ']
    simp

theorem emitClicked_eq_foldl (cb : CheckBox) (cs : List Connection) (w : StorerWorld) :
    emitClicked cb cs w = (slotsOf cb cs).foldl runSlot w := by
  induction cs generalizing w with
  | nil => rfl
  | cons c cs ih =>
    by_cases hc : c.sender = cb
    · have h1 : emitClicked cb (c :: cs) w = emitClicked cb cs (runSlot w c.slot) := by
        simp [emitClicked, hc]
      rw [h1, ih]
      simp [slotsOf, hc]
    · have h1 : emitClicked cb (c :: cs) w = emitClicked cb cs w := by
        simp [emitClicked, hc]
      rw [h1, ih]
      simp [slotsOf, hc]

theorem runSlot_tools_other (w : StorerWorld) (s : Slot) (t a : Nat)
    (h : w.ui.mTool = some t) (ha : a ≠ t) : (runSlot w s).tools a = w.tools a := by
  cases s <;> simp [runSlot, h, setTool, ha]

theorem emitClicked_tools_other (cb : CheckBox) (cs : List Connection) (w : StorerWorld)
    (t a : Nat) (h : w.ui.mTool = some t) (ha : a ≠ t) :
    (emitClicked cb cs w).tools a = w.tools a := by
  induction cs generalizing w with
  | nil => rfl
  | cons c cs ih =>
    simp only [emitClicked, List.foldl_cons] at ih ⊢
    split
    · rw [ih _ (by rw [runSlot_ui]; exact h)]
      exact runSlot_tools_other w c.slot t a h ha
    · exact ih w h

theorem toggle_mTool (ui : SAKStorerToolUi) (cb : CheckBox) :
    (ui.toggle cb).mTool = ui.mTool ∧ (ui.toggle cb).connections = ui.connections := by
  cases cb <;> exact ⟨rfl, rfl⟩

theorem click_other (cb : CheckBox) (w : StorerWorld) (t a : Nat)
    (h : w.ui.mTool = some t) (ha : a ≠ t) :
    (click cb w).tools a = w.tools a ∧ (click cb w).ui.mTool = some t ∧
    (click cb w).ui.connections = w.ui.connections := by
  have hui : (click cb w).ui = w.ui.toggle cb := by
    simp only [click]; rw [emitClicked_ui]
  refine ⟨?_, by rw [hui, (toggle_mTool _ _).1]; exact h, by rw [hui, (toggle_mTool _ _).2]⟩
  simp only [click]
  rw [emitClicked_tools_other cb _ _ t a (by rw [(toggle_mTool _ _).1]; exact h) ha]

theorem clickAll_other (cbs : List CheckBox) (w : StorerWorld) (t a : Nat)
    (h : w.ui.mTool = some t) (ha : a ≠ t) :
    (clickAll cbs w).tools a = w.tools a ∧ (clickAll cbs w).ui.mTool = some t ∧
    (clickAll cbs w).ui.connections = w.ui.connections := by
  induction cbs generalizing w with
  | nil => exact ⟨rfl, h, rfl⟩
  | cons cb cbs ih =>
    obtain ⟨h1, h2, h3⟩ := click_other cb w t a h ha
    obtain ⟨g1, g2, g3⟩ := ih (click cb w) h2
    exact ⟨g1.trans h1, g2, g3.trans h3⟩

/-- C13: replacing the tool never removes a click handler.  On a page whose
connections all have the page as receiver, every `setupStorer` call with a
non-null tool appends its four connections and drops none, so after the
calls for `t1..tn` the page holds `n` copies of them after what it had
before.  Per check box that is `n` copies of its slots: one for Enable and
Ms, two for Date, none for Time, and a click runs them all, in order.
`mTool` is `tn`; whatever is clicked afterwards, no flag of a tool other
than `tn` changes, and a click on Enable, Date or Ms leaves the matching flag
of `tn` equal to the box. -/
theorem C13_handlers_accumulate (pre : List Nat) (tn : Nat) (w : StorerWorld)
    (hw : ∀ c ∈ w.ui.connections, c.receiver = Receiver.this) :
    (∀ (t : Nat) (v : StorerWorld), (∀ c ∈ v.ui.connections, c.receiver = Receiver.this) →
      (setupStorer (some t) v).ui.connections = v.ui.connections ++ storerHandlers) ∧
    (setupStorerAll (pre ++ [tn]) w).ui.connections
      = w.ui.connections ++ handlerCopies (pre.length + 1) ∧
    (∀ cb, slotsOf cb (handlerCopies (pre.length + 1))
      = (List.replicate (pre.length + 1) (slotsOf cb storerHandlers)).flatten) ∧
    (slotsOf .checkBoxEnable storerHandlers = [Slot.setEnable] ∧
      slotsOf .checkBoxDate storerHandlers = [Slot.setSaveDate, Slot.setSaveTime] ∧
      slotsOf .checkBoxTime storerHandlers = [] ∧
      slotsOf .checkBoxMs storerHandlers = [Slot.setSaveMs]) ∧
    (∀ (cbs : List CheckBox) (cb : CheckBox),
      click cb (clickAll cbs (setupStorerAll (pre ++ [tn]) w)) =
        (slotsOf cb (w.ui.connections ++ handlerCopies (pre.length + 1))).foldl runSlot
          { clickAll cbs (setupStorerAll (pre ++ [tn]) w) with
            ui := (clickAll cbs (setupStorerAll (pre ++ [tn]) w)).ui.toggle cb }) ∧
    (setupStorerAll (pre ++ [tn]) w).ui.mTool = some tn ∧
    (∀ (cbs : List CheckBox) (a : Nat), a ≠ tn →
      (clickAll cbs (setupStorerAll (pre ++ [tn]) w)).tools a
        = (setupStorerAll (pre ++ [tn]) w).tools a) ∧
    (∀ (cbs : List CheckBox) (cb : CheckBox), cb ≠ .checkBoxTime →
      ((click cb (clickAll cbs (setupStorerAll (pre ++ [tn]) w))).tools tn).flag cb
        = (click cb (clickAll cbs (setupStorerAll (pre ++ [tn]) w))).ui.isChecked cb) := by
  have hconn := setupStorerAll_connections (pre ++ [tn]) w hw
  simp only [List.length_append, List.length_singleton] at hconn
  have hm : (setupStorerAll (pre ++ [tn]) w).ui.mTool = some tn := by
    rw [setupStorerAll_append]; rfl
  refine ⟨fun t v hv => setupStorer_connections t v hv, hconn,
    fun cb => slotsOf_handlerCopies cb _, by decide, ?_, hm, ?_, ?_⟩
  · intro cbs cb
    have hc : (clickAll cbs (setupStorerAll (pre ++ [tn]) w)).ui.connections
        = w.ui.connections ++ handlerCopies (pre.length + 1) := by
      rw [← hconn]
      exact (clickAll_other cbs _ tn (tn + 1) hm (by omega)).2.2
    simp only [click]
    rw [emitClicked_eq_foldl, (toggle_mTool _ _).2, hc]
  · intro cbs a ha
    exact (clickAll_other cbs _ tn a hm ha).1
  · intro cbs cb hcb
    obtain ⟨_, hm2, hc2⟩ := clickAll_other cbs (setupStorerAll (pre ++ [tn]) w) tn (tn + 1) hm
      (by omega)
    have hui : (click cb (clickAll cbs (setupStorerAll (pre ++ [tn]) w))).ui
        = (clickAll cbs (setupStorerAll (pre ++ [tn]) w)).ui.toggle cb := by
      simp only [click]; rw [emitClicked_ui]
    rw [hui]
    have hmem : ∀ c ∈ storerHandlers,
        c ∈ ((clickAll cbs (setupStorerAll (pre ++ [tn]) w)).ui.toggle cb).connections := by
      intro c hc
      rw [(toggle_mTool _ _).2, hc2, hconn, handlerCopies]
      exact List.mem_append_right _ (List.mem_append_right _ hc)
    have hmt : ((clickAll cbs (setupStorerAll (pre ++ [tn]) w)).ui.toggle cb).mTool = some tn := by
      rw [(toggle_mTool _ _).1]; exact hm2
    cases cb with
    | checkBoxTime => exact absurd rfl hcb
    | checkBoxEnable =>
      exact emitClicked_flag_of_mem .checkBoxEnable _
        { clickAll cbs (setupStorerAll (pre ++ [tn]) w) with
          ui := (clickAll cbs (setupStorerAll (pre ++ [tn]) w)).ui.toggle .checkBoxEnable } tn
        { sender := .checkBoxEnable, receiver := .this, slot := .setEnable } hmt
        (hmem _ (by simp [storerHandlers])) rfl
    | checkBoxDate =>
      exact emitClicked_flag_of_mem .checkBoxDate _
        { clickAll cbs (setupStorerAll (pre ++ [tn]) w) with
          ui := (clickAll cbs (setupStorerAll (pre ++ [tn]) w)).ui.toggle .checkBoxDate } tn
        { sender := .checkBoxDate, receiver := .this, slot := .setSaveDate } hmt
        (hmem _ (by simp [storerHandlers])) rfl
    | checkBoxMs =>
      exact emitClicked_flag_of_mem .checkBoxMs _
        { clickAll cbs (setupStorerAll (pre ++ [tn]) w) with
          ui := (clickAll cbs (setupStorerAll (pre ++ [tn]) w)).ui.toggle .checkBoxMs } tn
        { sender := .checkBoxMs, receiver := .this, slot := .setSaveMs } hmt
        (hmem _ (by simp [storerHandlers])) rfl

/-- C13 at a concrete input: a fresh page set up with the tools 1, 2, 3. -/
theorem C13_handlers_accumulate_witness :
    (setupStorerAll ([1, 2] ++ [3]) StorerWorld.fresh).ui.connections
      = StorerWorld.fresh.ui.connections ++ handlerCopies 3 ∧
    (∀ (cbs : List CheckBox) (a : Nat), a ≠ 3 →
      (clickAll cbs (setupStorerAll ([1, 2] ++ [3]) StorerWorld.fresh)).tools a
        = (setupStorerAll ([1, 2] ++ [3]) StorerWorld.fresh).tools a) :=
  ⟨(C13_handlers_accumulate [1, 2] 3 StorerWorld.fresh (by decide)).2.1,
   (C13_handlers_accumulate [1, 2] 3 StorerWorld.fresh (by decide)).2.2.2.2.2.2.1⟩

theorem append_releases_not_empty (x : String) : (x ++ "/releases").isEmpty = false := by
  cases h : (x ++ "/releases").isEmpty with
  | false => rfl
  | true =>
    have h1 : x ++ "/releases" = "" := (String.isEmpty_iff _).mp h
    have h2 : (x ++ "/releases").length = 0 := by rw [h1]; rfl
    rw [String.length_append] at h2
    have h3 : ("/releases" : String).length = 9 := by decide
    omega

theorem initLinksMenu_items (cfg : BuildConfig) (w : MainWindow) :
    (initLinksMenu cfg w).linksMenu =
      [ MenuItem.action ":/resources/images/Qt.png" "Qt Official Download"
          "http://download.qt.io/official_releases/qt",
        MenuItem.action ":/resources/images/Qt.png" "Qt Official Blog" "https://www.qt.io/blog",
        MenuItem.action ":/resources/images/Qt.png" "Qt Official Release"
          "https://wiki.qt.io/Qt_5.15_Release",
        MenuItem.separator,
        MenuItem.action ":/Resources/Icons/GitHub.svg" "Download xTools from Github"
          (cfg.X_TOOLS_GITHUB_REPOSITORY_URL ++ "/releases"),
        MenuItem.action ":/Resources/Icons/Gitee.svg" "Download xTools from Gitee"
          (cfg.X_TOOLS_GITEE_REPOSITORY_URL ++ "/releases"),
        MenuItem.separator,
        MenuItem.action ":/Resources/Images/I18n.png" "Office Web Site"
          "https://qsaker.gitee.io/qsak/" ] := by
  simp only [initLinksMenu, linkList, List.map_cons, List.map_nil, linkItem,
    append_releases_not_empty]
  rfl

/-- C14: `initLinksMenu` maps the link list to the Links menu entry by
entry, in list order.  An entry with an empty URL gives a separator at the
same position; an entry with a non-empty URL gives an action with the
entry's icon and name whose object name is the URL, and triggering that
action opens exactly that URL.  The list has eight entries, the menu eight
items: six actions and two separators. -/
theorem C14_links_menu (cfg : BuildConfig) (w : MainWindow) :
    (initLinksMenu cfg w).linksMenu = (linkList cfg).map linkItem ∧
    (∀ (i : Nat) (name url iconPath : String), (linkList cfg)[i]? = some (name, url, iconPath) →
      (url.isEmpty = true → (initLinksMenu cfg w).linksMenu[i]? = some MenuItem.separator) ∧
      (url.isEmpty = false →
        (initLinksMenu cfg w).linksMenu[i]? = some (MenuItem.action iconPath name url) ∧
        (triggerLink i (initLinksMenu cfg w)).trace = w.trace ++ [Effect.openUrl url])) ∧
    (linkList cfg).length = 8 ∧
    (initLinksMenu cfg w).linksMenu.length = 8 ∧
    ((initLinksMenu cfg w).linksMenu.filter MenuItem.isAction).length = 6 ∧
    ((initLinksMenu cfg w).linksMenu.filter (fun m => !m.isAction)).length = 2 := by
  refine ⟨rfl, ?_, rfl, ?_, ?_, ?_⟩
  · intro i name url iconPath hi
    have hitem : (initLinksMenu cfg w).linksMenu[i]? = some (linkItem (name, url, iconPath)) := by
      simp [initLinksMenu, List.getElem?_map, hi]
    refine ⟨fun he => ?_, fun he => ?_⟩
    · rw [hitem]; simp [linkItem, he]
    · have hact : (initLinksMenu cfg w).linksMenu[i]? = some (MenuItem.action iconPath name url) := by
        rw [hitem]; simp [linkItem, he]
      refine ⟨hact, ?_⟩
      simp only [triggerLink, List.get?_eq_getElem?, hact]
      rfl
  · rw [initLinksMenu_items]; rfl
  · rw [initLinksMenu_items]; rfl
  · rw [initLinksMenu_items]; rfl

/-- C14 at a concrete input: with the repository URL "gh", the fifth entry
is the GitHub download action and triggering it opens "gh/releases". -/
theorem C14_links_menu_witness :
    (initLinksMenu ⟨"gh", "ge", [], none, none⟩
        (MainWindow.base exampleKeys xToolsSettings.blank [])).linksMenu[4]?
      = some (MenuItem.action ":/Resources/Icons/GitHub.svg" "Download xTools from Github"
          "gh/releases") ∧
    (triggerLink 4 (initLinksMenu ⟨"gh", "ge", [], none, none⟩
        (MainWindow.base exampleKeys xToolsSettings.blank []))).trace
      = [Effect.openUrl "gh/releases"] :=
  ((C14_links_menu ⟨"gh", "ge", [], none, none⟩
    (MainWindow.base exampleKeys xToolsSettings.blank [])).2.1 4
      "Download xTools from Github" "gh/releases" ":/Resources/Icons/GitHub.svg" rfl).2
    (by decide)

end SAK
